import Mathlib

/-!
Verification of the decision core of victron_monitor.py.

The Python monitor loop (function monitor, together with get_status and
send_telegram_message) is embedded shallowly:

* floats carrying telemetry values (SOC, voltages, currents) become rationals;
* the tuple returned by get_status becomes FetchResult: the failure branches
  return seven Nones, the success branch returns the parsed fields;
* the per-cycle signal logic (source lines 1514-1651) becomes monitorCycle, a
  pure function from configuration, fetch result and mutable-global state to
  the new state plus the list of emitted side effects (Telegram messages and
  Tuya actuator commands);
* the schedule cache, refresh backoff, pre-outage trigger and quiet-hour gate
  are embedded by dedicated functions further below.

Python dicts keyed by phase 1..3 become the three-field structure Phases.

The signal logic is embedded in two layers.  send_telegram_message reads
the quiet-hour bounds with config.getint(option, fallback=None) (line
1666); the fallback applies only to a missing key, and load_config (lines
139-152) injects every DEFAULT_SETTINGS key, so the key always exists.
When a bound is stored as the empty string - the shipped default, and what
the quiet-hours menu writes to disable the feature - int('') raises
ValueError before anything is sent, and the monitor loop's outer except at
line 1654 aborts the rest of the cycle.  The first layer (gridSection,
socStep, powerPhaseStep, ..., monitorCycle) models the configuration in
which every send returns; the second layer (gridSectionS, socStepS, ...,
monitorCycleS, parameterized by sendRaises) models both outcomes of each
send call, recording exactly which state updates precede the raise.
-/

/-- A dict keyed by phase 1, 2, 3 (voltage_phases, output_currents, the
per-phase counters and flags of the monitor loop). -/
structure Phases (α : Type) where
  p1 : α
  p2 : α
  p3 : α
deriving DecidableEq

/-- Phase lookup mirroring a dict access d[phase] for phase in range(1,4).
Indices other than 1, 2, 3 never occur in the embedded loops. -/
def Phases.get {α : Type} (ps : Phases α) : Nat → α
  | 1 => ps.p1
  | 2 => ps.p2
  | _ => ps.p3

/-- The grid_status tuple (int(rawValue), formattedValue) built by get_status
for idDataAttribute GRID_ALARM_ID. -/
structure GridStatus where
  code : Int
  label : String
deriving DecidableEq

/-- VE_BUS_STATE value meaning Passthru (source line 71). -/
def PASSTHRU_STATE : Int := 9

/-- The observable side effects of one monitor cycle: each Telegram message
kind (with the numeric payload substituted into the template) and each Tuya
actuator command. -/
inductive Event where
  | gridDownMsg
  | tuyaOff
  | gridUpMsg
  | tuyaOn
  | lowBatteryMsg (soc : ℚ)
  | criticalBatteryMsg (soc : ℚ)
  | voltageLowMsg (phase : Nat) (voltage : ℚ)
  | voltageHighMsg (phase : Nat) (voltage : ℚ)
  | voltageNormalMsg (phase : Nat) (voltage : ℚ)
  | criticalLoadMsg (phase : Nat) (power : ℚ)
  | passthruMsg (phase : Nat) (current : ℚ)
deriving DecidableEq

/-- The configuration values read by the signal logic each cycle
(settings['BATTERY_LOW_SOC_THRESHOLD'] and friends, as numbers). -/
structure Config where
  battery_low_soc_threshold : ℚ
  battery_critical_soc_threshold : ℚ
  nominal_voltage : ℚ
  voltage_low_threshold : ℚ
  voltage_high_threshold : ℚ
  max_power : ℚ
  passthru_current : ℚ
deriving DecidableEq

/-- The mutable globals of the signal state machine (source lines 39-48). -/
structure MonitorState where
  last_grid_status : Option GridStatus
  last_soc : Option ℚ
  battery_low_reported : Bool
  battery_critical_reported : Bool
  last_voltage_phases : Phases (Option ℚ)
  voltage_issue_reported : Phases Bool
  power_issue_counters : Phases Nat
  power_issue_reported : Phases Bool
deriving DecidableEq

/-- Result of get_status (source lines 850-905): on any transport or parse
error every component of the returned 7-tuple is None; on success the
per-phase dicts exist (each entry still possibly None) and the scalar fields
are each possibly None. -/
inductive FetchResult where
  | failure
  | success (grid_status : Option GridStatus) (soc : Option ℚ)
      (voltage_phases output_voltages output_currents : Phases (Option ℚ))
      (ve_bus_state : Option Int)
deriving DecidableEq

/-- The grid_status component of a get_status result. -/
def FetchResult.grid : FetchResult → Option GridStatus
  | .failure => none
  | .success g _ _ _ _ _ => g

/-- Grid status section of the monitor loop (source lines 1514-1551):
edge-triggered on `grid_status != last_grid_status`, code 2 sends the
grid-down message and (when a Tuya controller exists) turns devices off,
code 0 sends the grid-up message and turns devices on, any other code and a
None status are ignored; last_grid_status is then set to the fetched value.
Send-success path: assumes send_telegram_message returns; gridSectionS
below models the ValueError path. -/
def gridSection (tuyaEnabled : Bool) (grid_status last : Option GridStatus) :
    Option GridStatus × List Event :=
  if grid_status ≠ last then
    match grid_status with
    | some gs =>
        if gs.code = 2 then
          (grid_status, Event.gridDownMsg :: (if tuyaEnabled then [Event.tuyaOff] else []))
        else if gs.code = 0 then
          (grid_status, Event.gridUpMsg :: (if tuyaEnabled then [Event.tuyaOn] else []))
        else (grid_status, [])
    | none => (grid_status, [])
  else (last, [])

/-- Battery SOC section of the monitor loop (source lines 1553-1574): the
guard requires both the current and previous SOC to be present; low and
critical falling-edge checks run first, then the recovery resets, each pair
on its own flag.  Returns (battery_low_reported, battery_critical_reported,
events);  last_soc is updated by the caller (source line 1576).
Send-success path: socStepS below models the ValueError path. -/
def socStep (lowThr critThr : ℚ) (soc last : Option ℚ) (lowR critR : Bool) :
    Bool × Bool × List Event :=
  match soc, last with
  | some s, some l =>
      let lowRes :=
        if l > lowThr ∧ s ≤ lowThr ∧ lowR = false then
          (true, [Event.lowBatteryMsg s])
        else (lowR, ([] : List Event))
      let critRes :=
        if l > critThr ∧ s ≤ critThr ∧ critR = false then
          (true, [Event.criticalBatteryMsg s])
        else (critR, ([] : List Event))
      let lowR2 := if s > lowThr ∧ lowRes.1 = true then false else lowRes.1
      let critR2 := if s > critThr ∧ critRes.1 = true then false else critRes.1
      (lowR2, critR2, lowRes.2 ++ critRes.2)
  | _, _ => (lowR, critR, [])

/-- Input-voltage check for one phase (source lines 1580-1609): a present
reading with rawValue strictly positive goes through the low / high /
back-to-normal elif chain against thresholds derived from NOMINAL_VOLTAGE;
a reading of 0 or an absent reading falls through without any event.
Returns (voltage_issue_reported[phase], events).  Send-success path:
voltagePhaseStepS below models the ValueError path; the two agree on every
input that sends nothing. -/
def voltagePhaseStep (cfg : Config) (phase : Nat) (voltage : Option ℚ) (reported : Bool) :
    Bool × List Event :=
  let voltage_low_threshold := cfg.nominal_voltage * cfg.voltage_low_threshold
  let voltage_high_threshold := cfg.nominal_voltage * cfg.voltage_high_threshold
  let voltage_normal_low := cfg.nominal_voltage * 0.955
  let voltage_normal_high := cfg.nominal_voltage * 1.045
  match voltage with
  | some v =>
      if v > 0 then
        if v < voltage_low_threshold ∧ reported = false then
          (true, [Event.voltageLowMsg phase v])
        else if v > voltage_high_threshold ∧ reported = false then
          (true, [Event.voltageHighMsg phase v])
        else if voltage_normal_low ≤ v ∧ v ≤ voltage_normal_high ∧ reported = true then
          (false, [Event.voltageNormalMsg phase v])
        else (reported, [])
      else (reported, [])
  | none => (reported, [])

/-- Grid-down output-power check for one phase (source lines 1613-1631):
requires both the output voltage and output current of the phase to be
present; power is NOMINAL_VOLTAGE * output_current; a breach increments
power_issue_counters[phase] and alerts once the counter reaches 2 with no
alert outstanding; a drop below 80% of MAX_POWER resets counter and flag.
Returns (counter, reported, events).  Send-success path: powerPhaseStepS
below models the ValueError path. -/
def powerPhaseStep (cfg : Config) (phase : Nat) (ov oc : Option ℚ) (counter : Nat)
    (reported : Bool) : Nat × Bool × List Event :=
  match ov, oc with
  | some _, some i =>
      let power := cfg.nominal_voltage * i
      let power_limit := cfg.max_power * 0.98
      let power_reset_threshold := cfg.max_power * 0.80
      if power > power_limit then
        let c := counter + 1
        if 2 ≤ c ∧ reported = false then
          (c, true, [Event.criticalLoadMsg phase power])
        else (c, reported, [])
      else if power < power_reset_threshold then (0, false, [])
      else (counter, reported, [])
  | _, _ => (counter, reported, [])

/-- Passthru output-current check for one phase (source lines 1635-1651):
the same counter/flag pair as the power check, thresholds 98% and 85% of
PASSTHRU_CURRENT.  Returns (counter, reported, events).  Send-success
path: passthruPhaseStepS below models the ValueError path. -/
def passthruPhaseStep (cfg : Config) (phase : Nat) (ov oc : Option ℚ) (counter : Nat)
    (reported : Bool) : Nat × Bool × List Event :=
  match ov, oc with
  | some _, some current =>
      let passthru_current_limit := cfg.passthru_current * 0.98
      let passthru_current_reset_threshold := cfg.passthru_current * 0.85
      if current > passthru_current_limit then
        let c := counter + 1
        if 2 ≤ c ∧ reported = false then
          (c, true, [Event.passthruMsg phase current])
        else (c, reported, [])
      else if current < passthru_current_reset_threshold then (0, false, [])
      else (counter, reported, [])
  | _, _ => (counter, reported, [])

/-- The voltage loop for phase in range(1,4) (source lines 1579-1609),
unrolled. -/
def voltageSection (cfg : Config) (vp : Phases (Option ℚ)) (rep : Phases Bool) :
    Phases Bool × List Event :=
  let s1 := voltagePhaseStep cfg 1 vp.p1 rep.p1
  let s2 := voltagePhaseStep cfg 2 vp.p2 rep.p2
  let s3 := voltagePhaseStep cfg 3 vp.p3 rep.p3
  (⟨s1.1, s2.1, s3.1⟩, s1.2 ++ s2.2 ++ s3.2)

/-- The grid-down power loop for phase in range(1,4) (source lines
1613-1631), unrolled. -/
def powerSection (cfg : Config) (ov oc : Phases (Option ℚ)) (counters : Phases Nat)
    (rep : Phases Bool) : Phases Nat × Phases Bool × List Event :=
  let s1 := powerPhaseStep cfg 1 ov.p1 oc.p1 counters.p1 rep.p1
  let s2 := powerPhaseStep cfg 2 ov.p2 oc.p2 counters.p2 rep.p2
  let s3 := powerPhaseStep cfg 3 ov.p3 oc.p3 counters.p3 rep.p3
  (⟨s1.1, s2.1, s3.1⟩, ⟨s1.2.1, s2.2.1, s3.2.1⟩, s1.2.2 ++ s2.2.2 ++ s3.2.2)

/-- The Passthru current loop for phase in range(1,4) (source lines
1635-1651), unrolled. -/
def passthruSection (cfg : Config) (ov oc : Phases (Option ℚ)) (counters : Phases Nat)
    (rep : Phases Bool) : Phases Nat × Phases Bool × List Event :=
  let s1 := passthruPhaseStep cfg 1 ov.p1 oc.p1 counters.p1 rep.p1
  let s2 := passthruPhaseStep cfg 2 ov.p2 oc.p2 counters.p2 rep.p2
  let s3 := passthruPhaseStep cfg 3 ov.p3 oc.p3 counters.p3 rep.p3
  (⟨s1.1, s2.1, s3.1⟩, ⟨s1.2.1, s2.2.1, s3.2.1⟩, s1.2.2 ++ s2.2.2 ++ s3.2.2)

/-- One pass of the signal logic of the monitor loop (source lines
1514-1651), after the priming cycle.  The sections run in source order:
grid, SOC, voltage phases, grid-down power phases, Passthru current phases.

When get_status failed (failure case) Python processes the seven Nones:
the grid section stores None into last_grid_status, the SOC guard skips the
alerts but line 1576 stores None into last_soc, and the voltage loop then
raises AttributeError on voltage_phases.get (voltage_phases is None), which
the outer `except Exception` at line 1654 catches, ending the cycle before
the voltage, power and Passthru sections can touch any further state.

This function models the configuration in which every
send_telegram_message call returns without raising (both quiet-hour bounds
parse as integers; see sendTelegramGate).  monitorCycleS below is the
send-aware cycle; with sendRaises = false it coincides with this one
(monitorCycleS_noRaise).  The failure branch attempts no sends, so it is
exact in every configuration. -/
def monitorCycle (cfg : Config) (tuyaEnabled : Bool) (fetch : FetchResult)
    (st : MonitorState) : MonitorState × List Event :=
  match fetch with
  | .failure =>
      let grid := gridSection tuyaEnabled none st.last_grid_status
      let soc := socStep cfg.battery_low_soc_threshold cfg.battery_critical_soc_threshold
        none st.last_soc st.battery_low_reported st.battery_critical_reported
      ({ st with
          last_grid_status := grid.1
          last_soc := none
          battery_low_reported := soc.1
          battery_critical_reported := soc.2.1 },
        grid.2 ++ soc.2.2)
  | .success grid_status soc vp ov oc ve_bus_state =>
      let grid := gridSection tuyaEnabled grid_status st.last_grid_status
      let socRes := socStep cfg.battery_low_soc_threshold cfg.battery_critical_soc_threshold
        soc st.last_soc st.battery_low_reported st.battery_critical_reported
      let volt := voltageSection cfg vp st.voltage_issue_reported
      let pow :=
        match grid_status with
        | some gs =>
            if gs.code = 2 then
              powerSection cfg ov oc st.power_issue_counters st.power_issue_reported
            else (st.power_issue_counters, st.power_issue_reported, [])
        | none => (st.power_issue_counters, st.power_issue_reported, [])
      let pt :=
        if ve_bus_state = some PASSTHRU_STATE then
          passthruSection cfg ov oc pow.1 pow.2.1
        else (pow.1, pow.2.1, [])
      ({ last_grid_status := grid.1
         last_soc := soc
         battery_low_reported := socRes.1
         battery_critical_reported := socRes.2.1
         last_voltage_phases := vp
         voltage_issue_reported := volt.1
         power_issue_counters := pt.1
         power_issue_reported := pt.2.1 },
        grid.2 ++ socRes.2.2 ++ volt.2 ++ pow.2.2 ++ pt.2.2)

/-- A concrete configuration used in the concrete evaluations: the numbers
of the spec examples (MAX_POWER 4000, NOMINAL_VOLTAGE 230, default voltage
and battery thresholds, PASSTHRU_CURRENT 16). -/
def exampleConfig : Config :=
  { battery_low_soc_threshold := 20
    battery_critical_soc_threshold := 10
    nominal_voltage := 230
    voltage_low_threshold := 0.9
    voltage_high_threshold := 1.1
    max_power := 4000
    passthru_current := 16 }

/-- A concrete grid-down status tuple. -/
def gridDownStatus : GridStatus := { code := 2, label := "Grid lost" }

/-- A concrete grid-up status tuple. -/
def gridUpStatus : GridStatus := { code := 0, label := "No alarm" }

/-- A concrete monitor state: grid up, SOC 50, nothing reported, all
counters zero. -/
def steadyUpState : MonitorState :=
  { last_grid_status := some gridUpStatus
    last_soc := some 50
    battery_low_reported := false
    battery_critical_reported := false
    last_voltage_phases := ⟨none, none, none⟩
    voltage_issue_reported := ⟨false, false, false⟩
    power_issue_counters := ⟨0, 0, 0⟩
    power_issue_reported := ⟨false, false, false⟩ }

/-- Claim C1, counterexample.  Starting from grid up with SOC 50, a cycle
whose telemetry fetch fails does NOT leave all signal state unchanged: the
claim (state identical and no events) is false at this concrete input,
because last_grid_status and last_soc are overwritten with None. -/
theorem c1_counterexample :
    ¬ ((monitorCycle exampleConfig true FetchResult.failure steadyUpState).1 = steadyUpState ∧
       (monitorCycle exampleConfig true FetchResult.failure steadyUpState).2 = []) := by
  decide

/-- Claim C1, amended.  In a cycle whose telemetry fetch fails, no
notification is sent and no actuator command is issued by the signal logic,
and the per-phase last voltages, voltage flags, breach counters and power
flags are unchanged; however the last accepted grid status and the last SOC
are overwritten with None rather than kept. -/
theorem c1_amended_fetch_failure_cycle (cfg : Config) (te : Bool) (st : MonitorState) :
    monitorCycle cfg te FetchResult.failure st =
      ({ st with last_grid_status := none, last_soc := none }, []) := by
  cases hg : st.last_grid_status with
  | none => simp [monitorCycle, gridSection, socStep, hg]
  | some g => simp [monitorCycle, gridSection, socStep, hg]

/-- A grid-down fetch result carrying only phase-1 output telemetry with the
given output current; SOC and input voltages absent, VE.Bus state absent. -/
def gridDownFetch (current : ℚ) : FetchResult :=
  FetchResult.success (some gridDownStatus) none ⟨none, none, none⟩
    ⟨some 230, none, none⟩ ⟨some current, none, none⟩ none

/-- A monitor state already in grid-down steady state: nothing reported,
all counters zero. -/
def steadyDownState : MonitorState :=
  { last_grid_status := some gridDownStatus
    last_soc := none
    battery_low_reported := false
    battery_critical_reported := false
    last_voltage_phases := ⟨none, none, none⟩
    voltage_issue_reported := ⟨false, false, false⟩
    power_issue_counters := ⟨0, 0, 0⟩
    power_issue_reported := ⟨false, false, false⟩ }

/-- Claim C10.  The grid-down power check and the Passthru current check
share power_issue_counters and power_issue_reported: in a single cycle with
the grid down, the VE.Bus state equal to Passthru, and phase 1 breaching
both the 98% power limit and the 98% Passthru current limit, the shared
phase-1 counter goes from 0 to 2 within the cycle and an alert (the
Passthru one) is already sent in that first cycle. -/
theorem shared_counter_double_increment_noRaise (cfg : Config) (st : MonitorState)
    (gs : GridStatus) (soc : Option ℚ) (vp ov oc : Phases (Option ℚ)) (v i : ℚ)
    (hcode : gs.code = 2) (hov : ov.p1 = some v) (hoc : oc.p1 = some i)
    (hc0 : st.power_issue_counters.p1 = 0) (hr0 : st.power_issue_reported.p1 = false)
    (hpow : cfg.nominal_voltage * i > cfg.max_power * 0.98)
    (hcur : i > cfg.passthru_current * 0.98) :
    (monitorCycle cfg true (FetchResult.success (some gs) soc vp ov oc
        (some PASSTHRU_STATE)) st).1.power_issue_counters.p1 = 2 ∧
    (monitorCycle cfg true (FetchResult.success (some gs) soc vp ov oc
        (some PASSTHRU_STATE)) st).1.power_issue_reported.p1 = true ∧
    Event.passthruMsg 1 i ∈ (monitorCycle cfg true (FetchResult.success (some gs) soc vp ov oc
        (some PASSTHRU_STATE)) st).2 := by
  have hps : powerPhaseStep cfg 1 ov.p1 oc.p1 st.power_issue_counters.p1
      st.power_issue_reported.p1 = (1, false, []) := by
    rw [hov, hoc, hc0, hr0]
    simp only [powerPhaseStep]
    rw [if_pos hpow, if_neg (by norm_num)]
  have hpt : passthruPhaseStep cfg 1 ov.p1 oc.p1 1 false =
      (2, true, [Event.passthruMsg 1 i]) := by
    rw [hov, hoc]
    simp only [passthruPhaseStep]
    rw [if_pos hcur, if_pos (by norm_num)]
  simp only [monitorCycle, powerSection, passthruSection, hcode, hps]
  simp [hpt]

/-- The grid section always stores the fetched status into
last_grid_status (either via the assignment at source line 1551 or because
it already held that value). -/
theorem gridSection_fst (te : Bool) (g last : Option GridStatus) :
    (gridSection te g last).1 = g := by
  rcases eq_or_ne g last with h | h
  · simp [gridSection, h]
  · cases g with
    | none => simp [gridSection, h]
    | some gs =>
        simp only [gridSection, ne_eq, h, not_false_iff, if_true]
        split_ifs <;> rfl

/-- After any cycle, last_grid_status holds the fetched grid status. -/
theorem monitorCycle_last_grid (cfg : Config) (te : Bool) (fr : FetchResult)
    (st : MonitorState) :
    (monitorCycle cfg te fr st).1.last_grid_status = fr.grid := by
  cases fr with
  | failure => simp [monitorCycle, FetchResult.grid, gridSection_fst]
  | success g soc vp ov oc vbs => simp [monitorCycle, FetchResult.grid, gridSection_fst]

/-- A grid-down transition (fetched code 2, different from the stored
status) with the Tuya controller available emits exactly the down message
followed by the devices-off command. -/
theorem gridSection_down_events (last : Option GridStatus) (g : GridStatus)
    (h : some g ≠ last) (hc : g.code = 2) :
    (gridSection true (some g) last).2 = [Event.gridDownMsg, Event.tuyaOff] := by
  simp [gridSection, h, hc]

/-- An unchanged grid status emits nothing. -/
theorem gridSection_same (te : Bool) (g last : Option GridStatus) (h : g = last) :
    (gridSection te g last).2 = [] := by
  simp [gridSection, h]

/-- The SOC section emits only battery messages, never grid messages or
actuator commands. -/
theorem socStep_no_grid_events (lt ct : ℚ) (soc last : Option ℚ) (lr cr : Bool) :
    Event.gridDownMsg ∉ (socStep lt ct soc last lr cr).2.2 ∧
    Event.tuyaOff ∉ (socStep lt ct soc last lr cr).2.2 := by
  rcases soc with _ | s <;> rcases last with _ | l <;>
    simp only [socStep] <;> first
    | (split_ifs <;> simp)
    | simp

/-- A single-phase voltage check emits only voltage messages. -/
theorem voltagePhaseStep_no_grid_events (cfg : Config) (p : Nat) (v : Option ℚ) (r : Bool) :
    Event.gridDownMsg ∉ (voltagePhaseStep cfg p v r).2 ∧
    Event.tuyaOff ∉ (voltagePhaseStep cfg p v r).2 := by
  rcases v with _ | x <;> simp only [voltagePhaseStep] <;> first
    | (split_ifs <;> simp)
    | simp

/-- A single-phase power check emits only the critical-load message. -/
theorem powerPhaseStep_no_grid_events (cfg : Config) (p : Nat) (ov oc : Option ℚ)
    (c : Nat) (r : Bool) :
    Event.gridDownMsg ∉ (powerPhaseStep cfg p ov oc c r).2.2 ∧
    Event.tuyaOff ∉ (powerPhaseStep cfg p ov oc c r).2.2 := by
  rcases ov with _ | x <;> rcases oc with _ | y <;>
    simp only [powerPhaseStep] <;> first
    | (split_ifs <;> simp)
    | simp

/-- A single-phase Passthru check emits only the Passthru message. -/
theorem passthruPhaseStep_no_grid_events (cfg : Config) (p : Nat) (ov oc : Option ℚ)
    (c : Nat) (r : Bool) :
    Event.gridDownMsg ∉ (passthruPhaseStep cfg p ov oc c r).2.2 ∧
    Event.tuyaOff ∉ (passthruPhaseStep cfg p ov oc c r).2.2 := by
  rcases ov with _ | x <;> rcases oc with _ | y <;>
    simp only [passthruPhaseStep] <;> first
    | (split_ifs <;> simp)
    | simp

/-- The voltage loop emits no grid messages or actuator commands. -/
theorem voltageSection_no_grid_events (cfg : Config) (vp : Phases (Option ℚ))
    (rep : Phases Bool) :
    Event.gridDownMsg ∉ (voltageSection cfg vp rep).2 ∧
    Event.tuyaOff ∉ (voltageSection cfg vp rep).2 := by
  simp only [voltageSection, List.mem_append, not_or]
  refine ⟨⟨⟨?_, ?_⟩, ?_⟩, ⟨?_, ?_⟩, ?_⟩ <;>
    first
    | exact (voltagePhaseStep_no_grid_events cfg 1 vp.p1 rep.p1).1
    | exact (voltagePhaseStep_no_grid_events cfg 2 vp.p2 rep.p2).1
    | exact (voltagePhaseStep_no_grid_events cfg 3 vp.p3 rep.p3).1
    | exact (voltagePhaseStep_no_grid_events cfg 1 vp.p1 rep.p1).2
    | exact (voltagePhaseStep_no_grid_events cfg 2 vp.p2 rep.p2).2
    | exact (voltagePhaseStep_no_grid_events cfg 3 vp.p3 rep.p3).2

/-- The grid-down power loop emits no grid messages or actuator commands. -/
theorem powerSection_no_grid_events (cfg : Config) (ov oc : Phases (Option ℚ))
    (cs : Phases Nat) (rep : Phases Bool) :
    Event.gridDownMsg ∉ (powerSection cfg ov oc cs rep).2.2 ∧
    Event.tuyaOff ∉ (powerSection cfg ov oc cs rep).2.2 := by
  simp only [powerSection, List.mem_append, not_or]
  refine ⟨⟨⟨?_, ?_⟩, ?_⟩, ⟨?_, ?_⟩, ?_⟩ <;>
    first
    | exact (powerPhaseStep_no_grid_events cfg 1 ov.p1 oc.p1 cs.p1 rep.p1).1
    | exact (powerPhaseStep_no_grid_events cfg 2 ov.p2 oc.p2 cs.p2 rep.p2).1
    | exact (powerPhaseStep_no_grid_events cfg 3 ov.p3 oc.p3 cs.p3 rep.p3).1
    | exact (powerPhaseStep_no_grid_events cfg 1 ov.p1 oc.p1 cs.p1 rep.p1).2
    | exact (powerPhaseStep_no_grid_events cfg 2 ov.p2 oc.p2 cs.p2 rep.p2).2
    | exact (powerPhaseStep_no_grid_events cfg 3 ov.p3 oc.p3 cs.p3 rep.p3).2

/-- The Passthru loop emits no grid messages or actuator commands. -/
theorem passthruSection_no_grid_events (cfg : Config) (ov oc : Phases (Option ℚ))
    (cs : Phases Nat) (rep : Phases Bool) :
    Event.gridDownMsg ∉ (passthruSection cfg ov oc cs rep).2.2 ∧
    Event.tuyaOff ∉ (passthruSection cfg ov oc cs rep).2.2 := by
  simp only [passthruSection, List.mem_append, not_or]
  refine ⟨⟨⟨?_, ?_⟩, ?_⟩, ⟨?_, ?_⟩, ?_⟩ <;>
    first
    | exact (passthruPhaseStep_no_grid_events cfg 1 ov.p1 oc.p1 cs.p1 rep.p1).1
    | exact (passthruPhaseStep_no_grid_events cfg 2 ov.p2 oc.p2 cs.p2 rep.p2).1
    | exact (passthruPhaseStep_no_grid_events cfg 3 ov.p3 oc.p3 cs.p3 rep.p3).1
    | exact (passthruPhaseStep_no_grid_events cfg 1 ov.p1 oc.p1 cs.p1 rep.p1).2
    | exact (passthruPhaseStep_no_grid_events cfg 2 ov.p2 oc.p2 cs.p2 rep.p2).2
    | exact (passthruPhaseStep_no_grid_events cfg 3 ov.p3 oc.p3 cs.p3 rep.p3).2

/-- Both grid-event counts of a whole cycle coincide with those of the grid
section alone: the SOC, voltage, power and Passthru sections contribute
nothing. -/
theorem monitorCycle_count_grid (cfg : Config) (te : Bool) (fr : FetchResult)
    (st : MonitorState) :
    (monitorCycle cfg te fr st).2.count Event.gridDownMsg =
      (gridSection te fr.grid st.last_grid_status).2.count Event.gridDownMsg ∧
    (monitorCycle cfg te fr st).2.count Event.tuyaOff =
      (gridSection te fr.grid st.last_grid_status).2.count Event.tuyaOff := by
  cases fr with
  | failure =>
      have hsoc := socStep_no_grid_events cfg.battery_low_soc_threshold
        cfg.battery_critical_soc_threshold none st.last_soc
        st.battery_low_reported st.battery_critical_reported
      constructor <;>
        simp [monitorCycle, FetchResult.grid, List.count_append,
          List.count_eq_zero.mpr hsoc.1, List.count_eq_zero.mpr hsoc.2]
  | success g soc vp ov oc vbs =>
      have hsoc := socStep_no_grid_events cfg.battery_low_soc_threshold
        cfg.battery_critical_soc_threshold soc st.last_soc
        st.battery_low_reported st.battery_critical_reported
      have hs1 := List.count_eq_zero.mpr hsoc.1
      have hs2 := List.count_eq_zero.mpr hsoc.2
      have hvolt := voltageSection_no_grid_events cfg vp st.voltage_issue_reported
      have hv1 := List.count_eq_zero.mpr hvolt.1
      have hv2 := List.count_eq_zero.mpr hvolt.2
      have hpow1 : ∀ a b, (powerSection cfg ov oc a b).2.2.count Event.gridDownMsg = 0 :=
        fun a b => List.count_eq_zero.mpr (powerSection_no_grid_events cfg ov oc a b).1
      have hpow2 : ∀ a b, (powerSection cfg ov oc a b).2.2.count Event.tuyaOff = 0 :=
        fun a b => List.count_eq_zero.mpr (powerSection_no_grid_events cfg ov oc a b).2
      have hpt1 : ∀ a b, (passthruSection cfg ov oc a b).2.2.count Event.gridDownMsg = 0 :=
        fun a b => List.count_eq_zero.mpr (passthruSection_no_grid_events cfg ov oc a b).1
      have hpt2 : ∀ a b, (passthruSection cfg ov oc a b).2.2.count Event.tuyaOff = 0 :=
        fun a b => List.count_eq_zero.mpr (passthruSection_no_grid_events cfg ov oc a b).2
      rcases g with _ | gs
      · by_cases hv : vbs = some PASSTHRU_STATE <;>
          constructor <;>
            simp [monitorCycle, FetchResult.grid, hv, List.count_append,
              hs1, hs2, hv1, hv2, hpow1, hpow2, hpt1, hpt2]
      · by_cases hc : gs.code = 2 <;> by_cases hv : vbs = some PASSTHRU_STATE <;>
          constructor <;>
            simp [monitorCycle, FetchResult.grid, hc, hv, List.count_append,
              hs1, hs2, hv1, hv2, hpow1, hpow2, hpt1, hpt2]

/-- Claim C2.  If the fetched grid status is a down tuple (code 2) in two
consecutive cycles with the same status value, and the previously accepted
status differed, then across the two cycles exactly one grid-down
notification is sent and the actuator turn-off is invoked exactly once:
the event is edge-triggered on change of the accepted value.  (The
pre-outage trigger block cannot add a turn-off in such cycles: source line
1484 gates it on the fetched grid status having code 0.) -/
theorem grid_down_two_cycles_noRaise (cfg : Config) (fr1 fr2 : FetchResult) (g : GridStatus)
    (st : MonitorState) (h1 : fr1.grid = some g) (h2 : fr2.grid = some g)
    (hcode : g.code = 2) (hprev : st.last_grid_status ≠ some g) :
    ((monitorCycle cfg true fr1 st).2 ++
        (monitorCycle cfg true fr2 (monitorCycle cfg true fr1 st).1).2).count
        Event.gridDownMsg = 1 ∧
    ((monitorCycle cfg true fr1 st).2 ++
        (monitorCycle cfg true fr2 (monitorCycle cfg true fr1 st).1).2).count
        Event.tuyaOff = 1 := by
  have hcyc1 := monitorCycle_count_grid cfg true fr1 st
  have hcyc2 := monitorCycle_count_grid cfg true fr2 (monitorCycle cfg true fr1 st).1
  have hlast : (monitorCycle cfg true fr1 st).1.last_grid_status = some g := by
    rw [monitorCycle_last_grid, h1]
  have he1 : (gridSection true fr1.grid st.last_grid_status).2 =
      [Event.gridDownMsg, Event.tuyaOff] := by
    rw [h1]
    exact gridSection_down_events st.last_grid_status g (Ne.symm hprev) hcode
  have he2 : (gridSection true fr2.grid
      (monitorCycle cfg true fr1 st).1.last_grid_status).2 = [] := by
    rw [h2, hlast]
    exact gridSection_same true (some g) (some g) rfl
  refine ⟨?_, ?_⟩
  · rw [List.count_append, hcyc1.1, hcyc2.1, he1, he2]
    simp [List.count_cons]
  · rw [List.count_append, hcyc1.2, hcyc2.2, he1, he2]
    simp [List.count_cons]

/-- The SOC section iterated over a run of present samples: each step feeds
socStep and then stores the sample as last_soc (source line 1576).  Returns
the final (last_soc, battery_low_reported, battery_critical_reported) and
the concatenated events. -/
def socRun (lowThr critThr : ℚ) (last : Option ℚ) (lowR critR : Bool) :
    List ℚ → (Option ℚ × Bool × Bool) × List Event
  | [] => ((last, lowR, critR), [])
  | s :: rest =>
      let step := socStep lowThr critThr (some s) last lowR critR
      let r := socRun lowThr critThr (some s) step.1 step.2.1 rest
      (r.1, step.2.2 ++ r.2)

/-- Recognizer for low-battery messages. -/
def Event.isLowBattery : Event → Bool
  | .lowBatteryMsg _ => true
  | _ => false

/-- Recognizer for critical-battery messages. -/
def Event.isCriticalBattery : Event → Bool
  | .criticalBatteryMsg _ => true
  | _ => false

/-- Exact low-alert emission condition of one SOC step: previous sample
strictly above the threshold, current at or below it, flag clear. -/
theorem socStep_low_count (lt ct s l : ℚ) (lr cr : Bool) :
    (socStep lt ct (some s) (some l) lr cr).2.2.countP Event.isLowBattery =
      if l > lt ∧ s ≤ lt ∧ lr = false then 1 else 0 := by
  simp only [socStep]
  split_ifs <;> simp [Event.isLowBattery]

/-- Exact critical-alert emission condition of one SOC step. -/
theorem socStep_crit_count (lt ct s l : ℚ) (lr cr : Bool) :
    (socStep lt ct (some s) (some l) lr cr).2.2.countP Event.isCriticalBattery =
      if l > ct ∧ s ≤ ct ∧ cr = false then 1 else 0 := by
  simp only [socStep]
  split_ifs <;> simp [Event.isCriticalBattery]

/-- The low flag clears in a step only when the sample is strictly above
the low threshold. -/
theorem socStep_low_clear (lt ct s l : ℚ) (cr : Bool)
    (h : (socStep lt ct (some s) (some l) true cr).1 = false) : s > lt := by
  by_contra hs
  rw [not_lt] at hs
  revert h
  simp only [socStep]
  split_ifs with h1 h2 <;> simp_all <;> linarith

/-- The critical flag clears in a step only when the sample is strictly
above the critical threshold. -/
theorem socStep_crit_clear (lt ct s l : ℚ) (lr : Bool)
    (h : (socStep lt ct (some s) (some l) lr true).2.1 = false) : s > ct := by
  by_contra hs
  rw [not_lt] at hs
  revert h
  simp only [socStep]
  split_ifs with h1 h2 <;> simp_all <;> linarith

/-- With the low flag set and a sample at or below the low threshold, the
flag stays set and no low alert is emitted (any previous value). -/
theorem socStep_low_keep (lt ct s : ℚ) (last : Option ℚ) (cr : Bool) (hs : s ≤ lt) :
    (socStep lt ct (some s) last true cr).1 = true ∧
    (socStep lt ct (some s) last true cr).2.2.countP Event.isLowBattery = 0 := by
  rcases last with _ | l
  · simp [socStep]
  · constructor
    · simp only [socStep]
      split_ifs <;> simp_all <;> linarith
    · rw [socStep_low_count]
      simp

/-- With the critical flag set and a sample at or below the critical
threshold, the flag stays set and no critical alert is emitted. -/
theorem socStep_crit_keep (lt ct s : ℚ) (last : Option ℚ) (lr : Bool) (hs : s ≤ ct) :
    (socStep lt ct (some s) last lr true).2.1 = true ∧
    (socStep lt ct (some s) last lr true).2.2.countP Event.isCriticalBattery = 0 := by
  rcases last with _ | l
  · simp [socStep]
  · constructor
    · simp only [socStep]
      split_ifs <;> simp_all <;> linarith
    · rw [socStep_crit_count]
      simp

/-- After a low alert fires (which requires the sample at or below the
threshold), the low flag is set. -/
theorem socStep_low_flag_after_fire (lt ct s l : ℚ) (lr cr : Bool)
    (h : l > lt ∧ s ≤ lt ∧ lr = false) :
    (socStep lt ct (some s) (some l) lr cr).1 = true := by
  simp only [socStep]
  split_ifs <;> simp_all <;> linarith

/-- After a critical alert fires, the critical flag is set. -/
theorem socStep_crit_flag_after_fire (lt ct s l : ℚ) (lr cr : Bool)
    (h : l > ct ∧ s ≤ ct ∧ cr = false) :
    (socStep lt ct (some s) (some l) lr cr).2.1 = true := by
  simp only [socStep]
  split_ifs <;> simp_all <;> linarith

/-- While the low flag is set, a run of samples all at or below the low
threshold emits no low alert at all. -/
theorem socRun_low_zero_of_flag (lt ct : ℚ) :
    ∀ (samples : List ℚ) (last : Option ℚ) (cr : Bool),
      (∀ x ∈ samples, x ≤ lt) →
      (socRun lt ct last true cr samples).2.countP Event.isLowBattery = 0
  | [], _, _, _ => by simp [socRun]
  | s :: rest, last, cr, h => by
      have hs : s ≤ lt := h s (List.mem_cons_self s rest)
      have hrest : ∀ x ∈ rest, x ≤ lt := fun x hx => h x (List.mem_cons_of_mem s hx)
      have hstep := socStep_low_keep lt ct s last cr hs
      simp only [socRun, List.countP_append]
      rw [hstep.1, hstep.2, socRun_low_zero_of_flag lt ct rest (some s) _ hrest]

/-- While the critical flag is set, a run of samples all at or below the
critical threshold emits no critical alert at all. -/
theorem socRun_crit_zero_of_flag (lt ct : ℚ) :
    ∀ (samples : List ℚ) (last : Option ℚ) (lr : Bool),
      (∀ x ∈ samples, x ≤ ct) →
      (socRun lt ct last lr true samples).2.countP Event.isCriticalBattery = 0
  | [], _, _, _ => by simp [socRun]
  | s :: rest, last, lr, h => by
      have hs : s ≤ ct := h s (List.mem_cons_self s rest)
      have hrest : ∀ x ∈ rest, x ≤ ct := fun x hx => h x (List.mem_cons_of_mem s hx)
      have hstep := socStep_crit_keep lt ct s last lr hs
      simp only [socRun, List.countP_append]
      rw [hstep.1, hstep.2, socRun_crit_zero_of_flag lt ct rest (some s) _ hrest]

/-- Once the previous sample is at or below the low threshold, no later
sample of a sub-threshold run can produce a low alert (the falling edge
needs the previous sample strictly above the threshold). -/
theorem socRun_low_zero_of_lastle (lt ct : ℚ) :
    ∀ (samples : List ℚ) (l : ℚ) (lr cr : Bool),
      (∀ x ∈ samples, x ≤ lt) → l ≤ lt →
      (socRun lt ct (some l) lr cr samples).2.countP Event.isLowBattery = 0
  | [], _, _, _, _, _ => by simp [socRun]
  | s :: rest, l, lr, cr, h, hl => by
      have hs : s ≤ lt := h s (List.mem_cons_self s rest)
      have hrest : ∀ x ∈ rest, x ≤ lt := fun x hx => h x (List.mem_cons_of_mem s hx)
      simp only [socRun, List.countP_append]
      rw [socStep_low_count, if_neg (fun hc => absurd hc.1 (not_lt.mpr hl)),
        socRun_low_zero_of_lastle lt ct rest s _ _ hrest hs]

/-- Once the previous sample is at or below the critical threshold, no
later sample of a sub-threshold run can produce a critical alert. -/
theorem socRun_crit_zero_of_lastle (lt ct : ℚ) :
    ∀ (samples : List ℚ) (l : ℚ) (lr cr : Bool),
      (∀ x ∈ samples, x ≤ ct) → l ≤ ct →
      (socRun lt ct (some l) lr cr samples).2.countP Event.isCriticalBattery = 0
  | [], _, _, _, _, _ => by simp [socRun]
  | s :: rest, l, lr, cr, h, hl => by
      have hs : s ≤ ct := h s (List.mem_cons_self s rest)
      have hrest : ∀ x ∈ rest, x ≤ ct := fun x hx => h x (List.mem_cons_of_mem s hx)
      simp only [socRun, List.countP_append]
      rw [socStep_crit_count, if_neg (fun hc => absurd hc.1 (not_lt.mpr hl)),
        socRun_crit_zero_of_lastle lt ct rest s _ _ hrest hs]

/-- Over any run of samples all at or below the low threshold, at most one
low alert is sent: one falling-edge crossing yields one alert. -/
theorem socRun_low_le_one (lt ct : ℚ) (last : Option ℚ) (lr cr : Bool)
    (samples : List ℚ) (h : ∀ x ∈ samples, x ≤ lt) :
    (socRun lt ct last lr cr samples).2.countP Event.isLowBattery ≤ 1 := by
  cases samples with
  | nil => simp [socRun]
  | cons s rest =>
      have hs : s ≤ lt := h s (List.mem_cons_self s rest)
      have hrest : ∀ x ∈ rest, x ≤ lt := fun x hx => h x (List.mem_cons_of_mem s hx)
      rcases last with _ | l
      · simp only [socRun, List.countP_append]
        have hstep : socStep lt ct (some s) none lr cr = (lr, cr, []) := rfl
        rw [hstep]
        simp only [List.countP_nil, Nat.zero_add]
        rw [socRun_low_zero_of_lastle lt ct rest s _ _ hrest hs]
        norm_num
      · simp only [socRun, List.countP_append]
        rw [socStep_low_count]
        by_cases hf : l > lt ∧ s ≤ lt ∧ lr = false
        · rw [if_pos hf, socStep_low_flag_after_fire lt ct s l lr cr hf,
            socRun_low_zero_of_flag lt ct rest (some s) _ hrest]
        · rw [if_neg hf, socRun_low_zero_of_lastle lt ct rest s _ _ hrest hs]
          norm_num

/-- Over any run of samples all at or below the critical threshold, at
most one critical alert is sent. -/
theorem socRun_crit_le_one (lt ct : ℚ) (last : Option ℚ) (lr cr : Bool)
    (samples : List ℚ) (h : ∀ x ∈ samples, x ≤ ct) :
    (socRun lt ct last lr cr samples).2.countP Event.isCriticalBattery ≤ 1 := by
  cases samples with
  | nil => simp [socRun]
  | cons s rest =>
      have hs : s ≤ ct := h s (List.mem_cons_self s rest)
      have hrest : ∀ x ∈ rest, x ≤ ct := fun x hx => h x (List.mem_cons_of_mem s hx)
      rcases last with _ | l
      · simp only [socRun, List.countP_append]
        have hstep : socStep lt ct (some s) none lr cr = (lr, cr, []) := rfl
        rw [hstep]
        simp only [List.countP_nil, Nat.zero_add]
        rw [socRun_crit_zero_of_lastle lt ct rest s _ _ hrest hs]
        norm_num
      · simp only [socRun, List.countP_append]
        rw [socStep_crit_count]
        by_cases hf : l > ct ∧ s ≤ ct ∧ cr = false
        · rw [if_pos hf, socStep_crit_flag_after_fire lt ct s l lr cr hf,
            socRun_crit_zero_of_flag lt ct rest (some s) _ hrest]
        · rw [if_neg hf, socRun_crit_zero_of_lastle lt ct rest s _ _ hrest hs]
          norm_num

/-- Both SOC flags can be outstanding at once: a single fall from above
both thresholds to at-or-below both sets both flags in the same step. -/
theorem socStep_both_outstanding (lt ct s l : ℚ) (h1 : l > lt) (h2 : l > ct)
    (h3 : s ≤ lt) (h4 : s ≤ ct) :
    (socStep lt ct (some s) (some l) false false).1 = true ∧
    (socStep lt ct (some s) (some l) false false).2.1 = true := by
  constructor
  · exact socStep_low_flag_after_fire lt ct s l false false ⟨h1, h3, rfl⟩
  · exact socStep_crit_flag_after_fire lt ct s l false false ⟨h2, h4, rfl⟩

/-- The per-phase voltage check iterated over a run of present samples.
The check never reads last_voltage_phases, so only the reported flag is
threaded through. -/
def voltageRun (cfg : Config) (phase : Nat) (reported : Bool) :
    List ℚ → Bool × List Event
  | [] => (reported, [])
  | v :: rest =>
      let step := voltagePhaseStep cfg phase (some v) reported
      let r := voltageRun cfg phase step.1 rest
      (r.1, step.2 ++ r.2)

/-- A sample that is zero, or that lies strictly between the two alert
thresholds and outside the recovery band, produces no event and leaves the
reported flag unchanged. -/
theorem voltagePhaseStep_dead_zone (cfg : Config) (phase : Nat) (reported : Bool)
    (v : ℚ)
    (h : v = 0 ∨
      (cfg.nominal_voltage * cfg.voltage_low_threshold < v ∧
       v < cfg.nominal_voltage * cfg.voltage_high_threshold ∧
       ¬(cfg.nominal_voltage * 0.955 ≤ v ∧ v ≤ cfg.nominal_voltage * 1.045))) :
    voltagePhaseStep cfg phase (some v) reported = (reported, []) := by
  rcases h with h | ⟨hlo, hhi, hband⟩
  · simp [voltagePhaseStep, h]
  · by_cases hpos : v > 0
    · simp only [voltagePhaseStep, if_pos hpos]
      rw [if_neg (fun hc => absurd hc.1 (not_lt.mpr (le_of_lt hlo))),
        if_neg (fun hc => absurd hc.1 (not_lt.mpr (le_of_lt hhi))),
        if_neg (fun hc => hband ⟨hc.1, hc.2.1⟩)]
    · simp [voltagePhaseStep, hpos]

/-- Claim C5.  Over any run of per-phase input-voltage samples each of
which is exactly 0 or lies strictly between the low and high alert
thresholds while outside the tighter recovery band, no alert and no
recovery message is ever sent and the per-phase reported flag never
changes: zero readings are skipped entirely and dead-zone readings fall
through every branch of the elif chain. -/
theorem c5_voltage_dead_zone_run (cfg : Config) (phase : Nat) (reported : Bool)
    (samples : List ℚ)
    (h : ∀ v ∈ samples, v = 0 ∨
      (cfg.nominal_voltage * cfg.voltage_low_threshold < v ∧
       v < cfg.nominal_voltage * cfg.voltage_high_threshold ∧
       ¬(cfg.nominal_voltage * 0.955 ≤ v ∧ v ≤ cfg.nominal_voltage * 1.045))) :
    voltageRun cfg phase reported samples = (reported, []) := by
  induction samples with
  | nil => simp [voltageRun]
  | cons v rest ih =>
      have hv := h v (List.mem_cons_self v rest)
      have hrest : ∀ x ∈ rest, _ := fun x hx => h x (List.mem_cons_of_mem v hx)
      simp [voltageRun, voltagePhaseStep_dead_zone cfg phase reported v hv,
        ih hrest]

/-- Claim C5, witness: with nominal 230 V and ratios 0.9 and 1.1 (alert
band 207..253, recovery band 219.65..240.35), the run 210, 0, 245 from a
set flag emits nothing and leaves the flag set. -/
theorem c5_witness :
    voltageRun exampleConfig 1 true [210, 0, 245] = (true, []) := by
  refine c5_voltage_dead_zone_run exampleConfig 1 true [210, 0, 245] ?_
  intro v hv
  simp only [List.mem_cons, List.not_mem_nil, or_false] at hv
  rcases hv with h | h | h <;> rw [h] <;> norm_num [exampleConfig]

/-- Ledger pruning at the top of the schedule block (source line 1440):
keep only trigger entries younger than 24 hours.  Datetimes are embedded as
epoch seconds. -/
def pruneLedger (now : Int) (ledger : List Int) : List Int :=
  ledger.filter (fun k => decide (now - 86400 < k))

/-- The pre-outage trigger loop over the period start datetimes of the
cached schedules (source lines 1486-1512): for each start, if now is
within [start - lead, start - lead + window] and the start is not in the
ledger, the Tuya turn-off is invoked and the start recorded.  Returns the
final ledger and the list of starts for which the actuator was invoked. -/
def processStarts (now window lead : Int) : List Int → List Int → List Int × List Int
  | [], ledger => (ledger, [])
  | s :: rest, ledger =>
      if 0 ≤ now - (s - lead) ∧ now - (s - lead) ≤ window ∧ s ∉ ledger then
        let r := processStarts now window lead rest (s :: ledger)
        (r.1, s :: r.2)
      else processStarts now window lead rest ledger

/-- One evaluation of the pre-outage trigger: prune the ledger, then walk
the starts. -/
def outageCycle (now window lead : Int) (starts ledger : List Int) :
    List Int × List Int :=
  processStarts now window lead starts (pruneLedger now ledger)

/-- A run of trigger evaluations, one per monitor cycle, each given the
current time and the starts visible in the cache at that cycle. -/
def outageRun (window lead : Int) :
    List (Int × List Int) → List Int → List Int × List Int
  | [], ledger => (ledger, [])
  | c :: rest, ledger =>
      let r1 := outageCycle c.1 window lead c.2 ledger
      let r2 := outageRun window lead rest r1.1
      (r2.1, r1.2 ++ r2.2)

/-- The trigger loop never removes ledger entries. -/
theorem processStarts_ledger_subset (now w l : Int) :
    ∀ (starts ledger : List Int) (x : Int), x ∈ ledger →
      x ∈ (processStarts now w l starts ledger).1
  | [], _, _, hx => hx
  | t :: rest, ledger, x, hx => by
      simp only [processStarts]
      split_ifs with hc
      · exact processStarts_ledger_subset now w l rest (t :: ledger) x
          (List.mem_cons_of_mem t hx)
      · exact processStarts_ledger_subset now w l rest ledger x hx

/-- A start already in the ledger is never invoked in the same loop. -/
theorem processStarts_count_zero_of_mem (now w l : Int) :
    ∀ (starts ledger : List Int) (s : Int), s ∈ ledger →
      (processStarts now w l starts ledger).2.count s = 0
  | [], _, _, _ => rfl
  | t :: rest, ledger, s, hs => by
      simp only [processStarts]
      split_ifs with hc
      · have hts : ¬(s = t) := fun h => hc.2.2 (h ▸ hs)
        simp only [List.count_cons,
          processStarts_count_zero_of_mem now w l rest (t :: ledger) s
            (List.mem_cons_of_mem t hs)]
        simp [Ne.symm hts]
      · exact processStarts_count_zero_of_mem now w l rest ledger s hs

/-- A start whose trigger window does not contain now is never invoked. -/
theorem processStarts_count_zero_of_not_window (now w l s : Int)
    (hw : ¬(0 ≤ now - (s - l) ∧ now - (s - l) ≤ w)) :
    ∀ (starts ledger : List Int),
      (processStarts now w l starts ledger).2.count s = 0
  | [], _ => rfl
  | t :: rest, ledger => by
      simp only [processStarts]
      split_ifs with hc
      · have hts : ¬(s = t) := by
          rintro rfl
          exact hw ⟨hc.1, hc.2.1⟩
        simp only [List.count_cons,
          processStarts_count_zero_of_not_window now w l s hw rest (t :: ledger)]
        simp [Ne.symm hts]
      · exact processStarts_count_zero_of_not_window now w l s hw rest ledger

/-- Within a single trigger evaluation, a given start is invoked at most
once (a second occurrence of the same start sees it in the ledger). -/
theorem processStarts_count_le_one (now w l : Int) :
    ∀ (starts ledger : List Int) (s : Int),
      (processStarts now w l starts ledger).2.count s ≤ 1
  | [], _, _ => by simp [processStarts]
  | t :: rest, ledger, s => by
      simp only [processStarts]
      split_ifs with hc
      · rcases eq_or_ne s t with rfl | hts
        · simp only [List.count_cons,
            processStarts_count_zero_of_mem now w l rest (s :: ledger) s
              (List.mem_cons_self s ledger)]
          simp
        · simp only [List.count_cons]
          have h := processStarts_count_le_one now w l rest (t :: ledger) s
          simp [Ne.symm hts]
          exact h
      · exact processStarts_count_le_one now w l rest ledger s

/-- An invocation can only happen with now inside the trigger window and
the start absent from the ledger the loop started with. -/
theorem processStarts_inv_conditions (now w l : Int) :
    ∀ (starts ledger : List Int) (s : Int),
      s ∈ (processStarts now w l starts ledger).2 →
      0 ≤ now - (s - l) ∧ now - (s - l) ≤ w ∧ s ∉ ledger
  | [], _, _, h => absurd h (List.not_mem_nil _)
  | t :: rest, ledger, s, h => by
      revert h
      simp only [processStarts]
      split_ifs with hc
      · intro h
        rcases List.mem_cons.mp h with rfl | hmem
        · exact hc
        · have ht := processStarts_inv_conditions now w l rest (t :: ledger) s hmem
          exact ⟨ht.1, ht.2.1, fun hs => ht.2.2 (List.mem_cons_of_mem t hs)⟩
      · exact processStarts_inv_conditions now w l rest ledger s

/-- Every invoked start is recorded in the resulting ledger. -/
theorem processStarts_inv_recorded (now w l : Int) :
    ∀ (starts ledger : List Int) (s : Int),
      s ∈ (processStarts now w l starts ledger).2 →
      s ∈ (processStarts now w l starts ledger).1
  | [], _, _, h => absurd h (List.not_mem_nil _)
  | t :: rest, ledger, s, h => by
      revert h
      simp only [processStarts]
      split_ifs with hc
      · intro h
        rcases List.mem_cons.mp h with rfl | hmem
        · exact processStarts_ledger_subset now w l rest (s :: ledger) s
            (List.mem_cons_self s ledger)
        · exact processStarts_inv_recorded now w l rest (t :: ledger) s hmem
      · exact processStarts_inv_recorded now w l rest ledger s

/-- As long as every evaluation time stays inside the trigger window and
the window is shorter than 24 hours plus the lead, a recorded start never
leaves the ledger and is never invoked again. -/
theorem outageRun_count_zero_of_mem (w l s : Int) (hWL : w < 86400 + l) :
    ∀ (cycles : List (Int × List Int)) (ledger : List Int), s ∈ ledger →
      (∀ c ∈ cycles, s - l ≤ c.1 ∧ c.1 ≤ s - l + w) →
      (outageRun w l cycles ledger).2.count s = 0
  | [], _, _, _ => rfl
  | c :: rest, ledger, hs, hcy => by
      have hc := hcy c (List.mem_cons_self c rest)
      have hsp : s ∈ pruneLedger c.1 ledger := by
        simp only [pruneLedger, List.mem_filter, decide_eq_true_eq]
        exact ⟨hs, by omega⟩
      simp only [outageRun, outageCycle, List.count_append]
      rw [processStarts_count_zero_of_mem c.1 w l c.2 _ s hsp,
        outageRun_count_zero_of_mem w l s hWL rest _
          (processStarts_ledger_subset c.1 w l c.2 _ s hsp)
          (fun x hx => hcy x (List.mem_cons_of_mem c hx))]

/-- Main idempotence lemma: over any run of in-window evaluations a start
is invoked at most once. -/
theorem outageRun_count_le_one (w l s : Int) (hWL : w < 86400 + l) :
    ∀ (cycles : List (Int × List Int)) (ledger : List Int),
      (∀ c ∈ cycles, s - l ≤ c.1 ∧ c.1 ≤ s - l + w) →
      (outageRun w l cycles ledger).2.count s ≤ 1
  | [], _, _ => by simp [outageRun]
  | c :: rest, ledger, hcy => by
      have hrest : ∀ x ∈ rest, s - l ≤ x.1 ∧ x.1 ≤ s - l + w :=
        fun x hx => hcy x (List.mem_cons_of_mem c hx)
      simp only [outageRun, List.count_append]
      by_cases hinv : s ∈ (outageCycle c.1 w l c.2 ledger).2
      · have h1 := processStarts_count_le_one c.1 w l c.2 (pruneLedger c.1 ledger) s
        have hrec : s ∈ (outageCycle c.1 w l c.2 ledger).1 :=
          processStarts_inv_recorded c.1 w l c.2 _ s hinv
        rw [outageRun_count_zero_of_mem w l s hWL rest _ hrec hrest]
        simpa [outageCycle] using h1
      · rw [List.count_eq_zero.mpr hinv]
        simpa using outageRun_count_le_one w l s hWL rest _ hrest

/-- Claim C6, counterexample.  The unconditional claim fails: with a
refresh period of 100000 s the trigger window max(60, 2*100000) = 200000 s
is longer than the 24 h ledger retention plus the (zero-minute) lead, so
evaluating the trigger at times 0 and 100000 - both inside the window of a
period starting at 0 - invokes the actuator twice for the same start: the
pruning at the second evaluation has already dropped the ledger entry. -/
theorem c6_counterexample :
    (outageRun (max 60 (2 * 100000)) (60 * 0)
        [(0, [0]), (100000, [0])] []).2.count 0 = 2 ∧
    (∀ c ∈ [((0 : Int), [(0 : Int)]), (100000, [0])],
        (0 : Int) - 60 * 0 ≤ c.1 ∧ c.1 ≤ 0 - 60 * 0 + max 60 (2 * 100000)) := by
  decide

/-- Claim C6, amended.  For every cached period start, the pre-outage
trigger invokes the actuator at most once, provided the trigger window
max(60 s, 2*refreshPeriod) is shorter than 24 hours plus the lead
(60*preOutageLeadMinutes) - true for every refresh period below 12 hours:
an invocation happens only when now lies in
[start - lead, start - lead + window] with the start absent from the
pruned ledger, the start is recorded upon invocation, and across any run
of in-window evaluations (ledger entries older than 24 h pruned each
cycle) no start triggers twice. -/
theorem c6_amended_trigger_once (refreshPeriod preMinutes s : Int)
    (hWL : max 60 (2 * refreshPeriod) < 86400 + 60 * preMinutes) :
    (∀ (now : Int) (starts ledger : List Int),
        s ∈ (outageCycle now (max 60 (2 * refreshPeriod)) (60 * preMinutes)
              starts ledger).2 →
        0 ≤ now - (s - 60 * preMinutes) ∧
        now - (s - 60 * preMinutes) ≤ max 60 (2 * refreshPeriod) ∧
        s ∉ pruneLedger now ledger) ∧
    (∀ (now : Int) (starts ledger : List Int),
        s ∈ (outageCycle now (max 60 (2 * refreshPeriod)) (60 * preMinutes)
              starts ledger).2 →
        s ∈ (outageCycle now (max 60 (2 * refreshPeriod)) (60 * preMinutes)
              starts ledger).1) ∧
    (∀ (cycles : List (Int × List Int)) (ledger : List Int),
        (∀ c ∈ cycles, s - 60 * preMinutes ≤ c.1 ∧
          c.1 ≤ s - 60 * preMinutes + max 60 (2 * refreshPeriod)) →
        (outageRun (max 60 (2 * refreshPeriod)) (60 * preMinutes)
            cycles ledger).2.count s ≤ 1) :=
  ⟨fun now starts ledger h =>
      processStarts_inv_conditions now (max 60 (2 * refreshPeriod))
        (60 * preMinutes) starts (pruneLedger now ledger) s h,
    fun now starts ledger h =>
      processStarts_inv_recorded now (max 60 (2 * refreshPeriod))
        (60 * preMinutes) starts (pruneLedger now ledger) s h,
    fun cycles ledger hcy =>
      outageRun_count_le_one (max 60 (2 * refreshPeriod)) (60 * preMinutes) s
        hWL cycles ledger hcy⟩

/-- Claim C6, witness: with the default 5 s refresh and 5 minute lead, a
period start at epoch 1000 evaluated at both ends of its 60 s window
(700 and 760) triggers exactly once, hence at most once. -/
theorem c6_witness :
    (outageRun (max 60 (2 * 5)) (60 * 5)
        [(700, [1000]), (760, [1000])] []).2.count 1000 ≤ 1 :=
  (c6_amended_trigger_once 5 5 1000 (by norm_num)).2.2
    [(700, [1000]), (760, [1000])] [] (by decide)

/-- An outage schedule dict as produced by the schedule extractor: date,
queue, and the list of (start, end) period strings. -/
structure DtekSchedule where
  date : String
  queue : String
  periods : List (String × String)
deriving DecidableEq

/-- Schedule equality check of the source (source lines 1285-1292): date,
queue and period list all equal.  (The falsy-dict guard of the Python
helper is unreachable from the cache-update call sites, which pass
schedules whose date key is set.) -/
def dtekSchedulesEqual (a b : DtekSchedule) : Bool :=
  a.date == b.date && a.queue == b.queue && a.periods == b.periods

/-- Cache lookup dtek_schedule_cache.get(ds). -/
def cacheGet (cache : List (String × DtekSchedule)) (k : String) : Option DtekSchedule :=
  (cache.find? (fun kv => kv.1 == k)).map Prod.snd

/-- Dict assignment dtek_schedule_cache[ds] = schedule: overwrite the
existing entry in place, or append a new one. -/
def cacheSet (cache : List (String × DtekSchedule)) (k : String) (v : DtekSchedule) :
    List (String × DtekSchedule) :=
  if cache.any (fun kv => kv.1 == k) then
    cache.map (fun kv => if kv.1 == k then (k, v) else kv)
  else cache ++ [(k, v)]

/-- The candidate loop of the schedule update (source lines 1453-1459):
each candidate with a set date is compared with the cached entry (staged as
updated when absent or different) and written into the cache.  Returns the
cache after all writes and the staged updated schedules. -/
def applyCandidates : List DtekSchedule → List (String × DtekSchedule) →
    List (String × DtekSchedule) × List DtekSchedule
  | [], cache => (cache, [])
  | c :: rest, cache =>
      if c.date ≠ "" then
        let updated :=
          match cacheGet cache c.date with
          | none => true
          | some prev => !(dtekSchedulesEqual prev c)
        let r := applyCandidates rest (cacheSet cache c.date c)
        (r.1, (if updated then [c] else []) ++ r.2)
      else applyCandidates rest cache

/-- A successful schedule fetch (source lines 1448-1462, and the identical
force_fetch_dtek_schedule at lines 1240-1248): when the candidate list is
non-empty, apply every candidate and then prune the cache to the keys
today and tomorrow; an empty candidate list leaves the cache untouched. -/
def scheduleFetchUpdate (todayStr tomorrowStr : String) (cands : List DtekSchedule)
    (cache : List (String × DtekSchedule)) :
    List (String × DtekSchedule) × List DtekSchedule :=
  if cands = [] then (cache, [])
  else
    let r := applyCandidates cands cache
    (r.1.filter (fun kv => kv.1 == todayStr || kv.1 == tomorrowStr), r.2)

/-- The key list of a cache. -/
def cacheKeys (cache : List (String × DtekSchedule)) : List String :=
  cache.map Prod.fst

/-- A dict assignment either keeps the key list (overwrite) or appends the
new key. -/
theorem cacheSet_keys_cases (cache : List (String × DtekSchedule)) (k : String)
    (v : DtekSchedule) :
    cacheKeys (cacheSet cache k v) = cacheKeys cache ∨
    (cacheKeys (cacheSet cache k v) = cacheKeys cache ++ [k] ∧ k ∉ cacheKeys cache) := by
  by_cases h : cache.any (fun kv => kv.1 == k)
  · left
    simp only [cacheKeys, cacheSet, if_pos h, List.map_map]
    refine List.map_congr_left ?_
    intro kv _
    by_cases hk : kv.1 == k
    · simp only [Function.comp_apply, if_pos hk]
      exact (eq_of_beq hk).symm
    · have hk2 : ¬(kv.1 = k) := by simpa using hk
      simp [Function.comp_apply, hk2]
  · right
    constructor
    · simp [cacheKeys, cacheSet, if_neg h, List.map_append]
    · intro hk
      simp only [cacheKeys, List.mem_map] at hk
      obtain ⟨kv, hkv, hfst⟩ := hk
      simp only [List.any_eq_true] at h
      exact h ⟨kv, hkv, by simp [hfst]⟩

/-- A dict assignment preserves the pruning invariant: today and tomorrow
stay present and the filtered key list stays exactly [today, tomorrow]. -/
theorem cacheSet_filter_keys (today tomorrow : String)
    (cache : List (String × DtekSchedule)) (k : String) (v : DtekSchedule)
    (h1 : today ∈ cacheKeys cache) (h2 : tomorrow ∈ cacheKeys cache)
    (h3 : (cacheKeys cache).filter (fun x => x == today || x == tomorrow) =
      [today, tomorrow]) :
    today ∈ cacheKeys (cacheSet cache k v) ∧
    tomorrow ∈ cacheKeys (cacheSet cache k v) ∧
    (cacheKeys (cacheSet cache k v)).filter (fun x => x == today || x == tomorrow) =
      [today, tomorrow] := by
  rcases cacheSet_keys_cases cache k v with h | ⟨h, hk⟩
  · rw [h]
    exact ⟨h1, h2, h3⟩
  · rw [h]
    have hkt : ¬(k = today) := fun e => hk (e ▸ h1)
    have hkm : ¬(k = tomorrow) := fun e => hk (e ▸ h2)
    refine ⟨List.mem_append_left _ h1, List.mem_append_left _ h2, ?_⟩
    rw [List.filter_append, h3]
    simp [hkt, hkm]

/-- The candidate loop preserves the pruning invariant. -/
theorem applyCandidates_inv (today tomorrow : String) :
    ∀ (cands : List DtekSchedule) (cache : List (String × DtekSchedule)),
      today ∈ cacheKeys cache → tomorrow ∈ cacheKeys cache →
      (cacheKeys cache).filter (fun x => x == today || x == tomorrow) =
        [today, tomorrow] →
      today ∈ cacheKeys (applyCandidates cands cache).1 ∧
      tomorrow ∈ cacheKeys (applyCandidates cands cache).1 ∧
      (cacheKeys (applyCandidates cands cache).1).filter
        (fun x => x == today || x == tomorrow) = [today, tomorrow]
  | [], _, h1, h2, h3 => ⟨h1, h2, h3⟩
  | c :: rest, cache, h1, h2, h3 => by
      by_cases hd : c.date ≠ ""
      · have h := cacheSet_filter_keys today tomorrow cache c.date c h1 h2 h3
        have hrec := applyCandidates_inv today tomorrow rest (cacheSet cache c.date c)
          h.1 h.2.1 h.2.2
        simpa [applyCandidates, hd] using hrec
      · simpa [applyCandidates, hd] using
          applyCandidates_inv today tomorrow rest cache h1 h2 h3

/-- Filtering pairs on their key commutes with projecting the keys. -/
theorem map_fst_filter_keys (a b : String) :
    ∀ l : List (String × DtekSchedule),
      (l.filter (fun kv => kv.1 == a || kv.1 == b)).map Prod.fst =
        (l.map Prod.fst).filter (fun x => x == a || x == b)
  | [] => rfl
  | kv :: rest => by
      simp only [List.filter_cons, List.map_cons]
      by_cases h : (kv.1 == a || kv.1 == b) = true <;>
        simp [h, map_fst_filter_keys a b rest]

/-- Date string constants of the spec example. -/
def d20240101 : String := "2024-01-01"

/-- Date string for 2024-01-02. -/
def d20240102 : String := "2024-01-02"

/-- Date string for 2024-01-03. -/
def d20240103 : String := "2024-01-03"

/-- Date string for 2024-01-04. -/
def d20240104 : String := "2024-01-04"

/-- Queue identifier of the default configuration. -/
def queue31 : String := "3.1"

/-- A cached schedule for 2024-01-01. -/
def c7sched1 : DtekSchedule := { date := d20240101, queue := queue31, periods := [] }

/-- A cached schedule for 2024-01-02. -/
def c7sched2 : DtekSchedule := { date := d20240102, queue := queue31, periods := [] }

/-- A cached schedule for 2024-01-03. -/
def c7sched3 : DtekSchedule := { date := d20240103, queue := queue31, periods := [] }

/-- A fetched schedule for 2024-01-04. -/
def c7sched4 : DtekSchedule := { date := d20240104, queue := queue31, periods := [] }

/-- The spec example cache: entries for 2024-01-01 .. 2024-01-03. -/
def c7InitialCache : List (String × DtekSchedule) :=
  [(d20240101, c7sched1), (d20240102, c7sched2), (d20240103, c7sched3)]

/-- Claim C7.  After every schedule update that processes a non-empty
candidate list, the cache keys are a subset of the today/tomorrow pair; and
concretely, starting from cached dates 2024-01-01..03 with today
2024-01-02, any non-empty update leaves the cache with exactly the keys
[2024-01-02, 2024-01-03]. -/
theorem c7_cache_prune_today_tomorrow :
    (∀ (today tomorrow : String) (cands : List DtekSchedule)
        (cache : List (String × DtekSchedule)), cands ≠ [] →
        ∀ k ∈ (scheduleFetchUpdate today tomorrow cands cache).1.map Prod.fst,
          k = today ∨ k = tomorrow) ∧
    (∀ cands : List DtekSchedule, cands ≠ [] →
        (scheduleFetchUpdate d20240102 d20240103 cands c7InitialCache).1.map
          Prod.fst = [d20240102, d20240103]) := by
  constructor
  · intro today tomorrow cands cache hne k hk
    simp only [scheduleFetchUpdate, if_neg hne, List.mem_map, List.mem_filter] at hk
    obtain ⟨kv, ⟨hkv, hp⟩, hfst⟩ := hk
    simp only [Bool.or_eq_true, beq_iff_eq] at hp
    rcases hp with h | h
    · exact Or.inl (hfst ▸ h)
    · exact Or.inr (hfst ▸ h)
  · intro cands hne
    have hinv := applyCandidates_inv d20240102 d20240103 cands c7InitialCache
      (by decide) (by decide) (by decide)
    simp only [scheduleFetchUpdate, if_neg hne]
    rw [map_fst_filter_keys d20240102 d20240103]
    exact hinv.2.2

/-- Claim C7, witness: updating the example cache with a single candidate
dated 2024-01-04 leaves exactly the keys 2024-01-02 and 2024-01-03. -/
theorem c7_witness :
    (scheduleFetchUpdate d20240102 d20240103 [c7sched4] c7InitialCache).1.map
      Prod.fst = [d20240102, d20240103] :=
  c7_cache_prune_today_tomorrow.2 [c7sched4] (by simp)

/-- The schedule fetch timer state (source lines 1306-1307):
next_schedule_fetch_ts and schedule_fetch_failures. -/
structure ScheduleFetchState where
  next_schedule_fetch_ts : Int
  schedule_fetch_failures : Nat
deriving DecidableEq

/-- One scheduler tick of the schedule refresh protocol (source lines
1442-1445 and 1472-1482), with timestamps in whole seconds: when the fetch
is due (now_ts >= next_schedule_fetch_ts) it is attempted; success resets
the failure counter and re-arms the timer a full refresh interval
max(60, refreshMinutes*60) ahead; failure increments the counter first and
re-arms the timer min(refreshInterval, 5 * 2^min(failures, 6)) seconds
ahead.  Returns the new state and whether a fetch was attempted. -/
def scheduleFetchTick (refreshMinutes : Int) (st : ScheduleFetchState) (nowTs : Int)
    (fetchSucceeds : Bool) : ScheduleFetchState × Bool :=
  let refresh_seconds := max 60 (refreshMinutes * 60)
  if st.next_schedule_fetch_ts ≤ nowTs then
    if fetchSucceeds then
      ({ next_schedule_fetch_ts := nowTs + refresh_seconds,
         schedule_fetch_failures := 0 }, true)
    else
      let failures1 := st.schedule_fetch_failures + 1
      ({ next_schedule_fetch_ts :=
           nowTs + min refresh_seconds (5 * 2 ^ (min failures1 6)),
         schedule_fetch_failures := failures1 }, true)
  else (st, false)

/-- Claim C8.  The refresh timer interval is max(60s, refreshMinutes*60):
a due failed fetch increments the failure counter and delays the next
attempt by exactly min(refreshInterval, 5 * 2^min(failureCount, 6))
seconds, where failureCount counts the failures observed so far (including
this one); a due successful fetch resets the counter to zero and re-arms
the full interval; a tick before the deadline changes nothing. -/
theorem c8_refresh_backoff (refreshMinutes nowTs : Int) (st : ScheduleFetchState) :
    (st.next_schedule_fetch_ts ≤ nowTs →
      (scheduleFetchTick refreshMinutes st nowTs false).1.schedule_fetch_failures =
        st.schedule_fetch_failures + 1 ∧
      (scheduleFetchTick refreshMinutes st nowTs false).1.next_schedule_fetch_ts =
        nowTs + min (max 60 (refreshMinutes * 60))
          (5 * 2 ^ (min (st.schedule_fetch_failures + 1) 6)) ∧
      (scheduleFetchTick refreshMinutes st nowTs true).1.schedule_fetch_failures = 0 ∧
      (scheduleFetchTick refreshMinutes st nowTs true).1.next_schedule_fetch_ts =
        nowTs + max 60 (refreshMinutes * 60)) ∧
    (¬ st.next_schedule_fetch_ts ≤ nowTs →
      ∀ b : Bool, scheduleFetchTick refreshMinutes st nowTs b = (st, false)) := by
  constructor
  · intro hdue
    refine ⟨?_, ?_, ?_, ?_⟩ <;> simp [scheduleFetchTick, hdue]
  · intro hdue b
    simp [scheduleFetchTick, hdue]

/-- Claim C8, witness: with a 60 minute refresh interval and no prior
failures, a failed due fetch at time 0 sets the counter to 1 and the next
attempt 10 seconds ahead (min(3600, 5*2^1)); a successful one re-arms 3600
seconds ahead with the counter cleared. -/
theorem c8_witness :
    (scheduleFetchTick 60 ⟨0, 0⟩ 0 false).1.schedule_fetch_failures = 1 ∧
    (scheduleFetchTick 60 ⟨0, 0⟩ 0 false).1.next_schedule_fetch_ts = 10 ∧
    (scheduleFetchTick 60 ⟨0, 0⟩ 0 true).1.schedule_fetch_failures = 0 ∧
    (scheduleFetchTick 60 ⟨0, 0⟩ 0 true).1.next_schedule_fetch_ts = 3600 := by
  have h := (c8_refresh_backoff 60 0 ⟨0, 0⟩).1 (by norm_num)
  refine ⟨h.1, ?_, h.2.2.1, ?_⟩
  · rw [h.2.1]
    norm_num
  · rw [h.2.2.2]
    norm_num


/-- Result of running a code region that may call send_telegram_message:
the state it leaves behind, the messages and commands actually delivered,
and ok = false when a send raised ValueError (quiet-hour bound stored as a
non-integer string), which the outer except at line 1654 turns into an
abort of the rest of the cycle. -/
structure StepOut (σ : Type) where
  state : σ
  events : List Event
  ok : Bool
deriving DecidableEq

/-- Grid status section (lines 1514-1551) with explicit send behavior:
when the send at 1522/1536 raises, no message is delivered, the Tuya
command (1526-1545) does not run, and last_grid_status (1551) is not
updated. -/
def gridSectionS (sendRaises tuyaEnabled : Bool) (grid_status last : Option GridStatus) :
    StepOut (Option GridStatus) :=
  if grid_status ≠ last then
    match grid_status with
    | some gs =>
        if gs.code = 2 then
          if sendRaises then ⟨last, [], false⟩
          else ⟨grid_status,
            Event.gridDownMsg :: (if tuyaEnabled then [Event.tuyaOff] else []), true⟩
        else if gs.code = 0 then
          if sendRaises then ⟨last, [], false⟩
          else ⟨grid_status,
            Event.gridUpMsg :: (if tuyaEnabled then [Event.tuyaOn] else []), true⟩
        else ⟨grid_status, [], true⟩
    | none => ⟨grid_status, [], true⟩
  else ⟨last, [], true⟩

/-- The SOC recovery resets (lines 1569-1574); they contain no send. -/
def socResets (lowThr critThr s : ℚ) (lowR critR : Bool) (evs : List Event) :
    StepOut (Bool × Bool) :=
  ⟨(if s > lowThr ∧ lowR = true then false else lowR,
    if s > critThr ∧ critR = true then false else critR), evs, true⟩

/-- The critical-battery check (lines 1562-1566): when its send raises,
the flags so far and last_soc are left as they are. -/
def socCritCheck (sendRaises : Bool) (lowThr critThr s l : ℚ) (lowR critR : Bool)
    (evs : List Event) : StepOut (Bool × Bool) :=
  if l > critThr ∧ s ≤ critThr ∧ critR = false then
    if sendRaises then ⟨(lowR, critR), evs, false⟩
    else socResets lowThr critThr s lowR true (evs ++ [Event.criticalBatteryMsg s])
  else socResets lowThr critThr s lowR critR evs

/-- SOC section (lines 1553-1574) with sends: when the low-battery send at
1557 raises, battery_low_reported (1558) is not set and the critical check
and resets do not run.  last_soc (line 1576) is handled by the caller,
which skips it when ok = false. -/
def socStepS (sendRaises : Bool) (lowThr critThr : ℚ) (soc last : Option ℚ)
    (lowR critR : Bool) : StepOut (Bool × Bool) :=
  match soc, last with
  | some s, some l =>
      if l > lowThr ∧ s ≤ lowThr ∧ lowR = false then
        if sendRaises then ⟨(lowR, critR), [], false⟩
        else socCritCheck sendRaises lowThr critThr s l true critR [Event.lowBatteryMsg s]
      else socCritCheck sendRaises lowThr critThr s l lowR critR []
  | _, _ => ⟨(lowR, critR), [], true⟩

/-- Input-voltage check for one phase (lines 1590-1607) with sends: when
an alert/recovery send raises, voltage_issue_reported[phase] is not
updated. -/
def voltagePhaseStepS (sendRaises : Bool) (cfg : Config) (phase : Nat)
    (voltage : Option ℚ) (reported : Bool) : StepOut Bool :=
  let voltage_low_threshold := cfg.nominal_voltage * cfg.voltage_low_threshold
  let voltage_high_threshold := cfg.nominal_voltage * cfg.voltage_high_threshold
  let voltage_normal_low := cfg.nominal_voltage * 0.955
  let voltage_normal_high := cfg.nominal_voltage * 1.045
  match voltage with
  | some v =>
      if v > 0 then
        if v < voltage_low_threshold ∧ reported = false then
          if sendRaises then ⟨reported, [], false⟩
          else ⟨true, [Event.voltageLowMsg phase v], true⟩
        else if v > voltage_high_threshold ∧ reported = false then
          if sendRaises then ⟨reported, [], false⟩
          else ⟨true, [Event.voltageHighMsg phase v], true⟩
        else if voltage_normal_low ≤ v ∧ v ≤ voltage_normal_high ∧ reported = true then
          if sendRaises then ⟨reported, [], false⟩
          else ⟨false, [Event.voltageNormalMsg phase v], true⟩
        else ⟨reported, [], true⟩
      else ⟨reported, [], true⟩
  | none => ⟨reported, [], true⟩

/-- The voltage loop (lines 1579-1609) with sends: each completed phase
also writes last_voltage_phases[phase] (line 1609); an aborting phase
skips its own write and every later phase. -/
def voltageSectionS (sendRaises : Bool) (cfg : Config) (vp lastVp : Phases (Option ℚ))
    (rep : Phases Bool) : StepOut (Phases (Option ℚ) × Phases Bool) :=
  let s1 := voltagePhaseStepS sendRaises cfg 1 vp.p1 rep.p1
  if s1.ok then
    let lv1 := { lastVp with p1 := vp.p1 }
    let rep1 := { rep with p1 := s1.state }
    let s2 := voltagePhaseStepS sendRaises cfg 2 vp.p2 rep.p2
    if s2.ok then
      let lv2 := { lv1 with p2 := vp.p2 }
      let rep2 := { rep1 with p2 := s2.state }
      let s3 := voltagePhaseStepS sendRaises cfg 3 vp.p3 rep.p3
      if s3.ok then
        ⟨({ lv2 with p3 := vp.p3 }, { rep2 with p3 := s3.state }),
          s1.events ++ s2.events ++ s3.events, true⟩
      else ⟨(lv2, rep2), s1.events ++ s2.events ++ s3.events, false⟩
    else ⟨(lv1, rep1), s1.events ++ s2.events, false⟩
  else ⟨(lastVp, rep), s1.events, false⟩

/-- Grid-down power check for one phase (lines 1613-1631) with sends: the
counter increment (1623) precedes the send (1627), so an aborting alert
leaves the counter incremented but the flag (1628) unset. -/
def powerPhaseStepS (sendRaises : Bool) (cfg : Config) (phase : Nat) (ov oc : Option ℚ)
    (counter : Nat) (reported : Bool) : StepOut (Nat × Bool) :=
  match ov, oc with
  | some _, some i =>
      let power := cfg.nominal_voltage * i
      let power_limit := cfg.max_power * 0.98
      let power_reset_threshold := cfg.max_power * 0.80
      if power > power_limit then
        let c := counter + 1
        if 2 ≤ c ∧ reported = false then
          if sendRaises then ⟨(c, reported), [], false⟩
          else ⟨(c, true), [Event.criticalLoadMsg phase power], true⟩
        else ⟨(c, reported), [], true⟩
      else if power < power_reset_threshold then ⟨(0, false), [], true⟩
      else ⟨(counter, reported), [], true⟩
  | _, _ => ⟨(counter, reported), [], true⟩

/-- The grid-down power loop (lines 1612-1631) with sends, phases
threaded; an aborting phase skips every later phase. -/
def powerSectionS (sendRaises : Bool) (cfg : Config) (ov oc : Phases (Option ℚ))
    (counters : Phases Nat) (rep : Phases Bool) : StepOut (Phases Nat × Phases Bool) :=
  let s1 := powerPhaseStepS sendRaises cfg 1 ov.p1 oc.p1 counters.p1 rep.p1
  if s1.ok then
    let c1 := { counters with p1 := s1.state.1 }
    let r1 := { rep with p1 := s1.state.2 }
    let s2 := powerPhaseStepS sendRaises cfg 2 ov.p2 oc.p2 counters.p2 rep.p2
    if s2.ok then
      let c2 := { c1 with p2 := s2.state.1 }
      let r2 := { r1 with p2 := s2.state.2 }
      let s3 := powerPhaseStepS sendRaises cfg 3 ov.p3 oc.p3 counters.p3 rep.p3
      if s3.ok then
        ⟨({ c2 with p3 := s3.state.1 }, { r2 with p3 := s3.state.2 }),
          s1.events ++ s2.events ++ s3.events, true⟩
      else ⟨({ c2 with p3 := s3.state.1 }, { r2 with p3 := s3.state.2 }),
        s1.events ++ s2.events ++ s3.events, false⟩
    else ⟨({ c1 with p2 := s2.state.1 }, { r1 with p2 := s2.state.2 }),
      s1.events ++ s2.events, false⟩
  else ⟨({ counters with p1 := s1.state.1 }, { rep with p1 := s1.state.2 }),
    s1.events, false⟩

/-- Passthru current check for one phase (lines 1635-1651) with sends:
the counter increment (1643) precedes the send (1647), so an aborting
alert leaves the counter incremented but the flag (1648) unset. -/
def passthruPhaseStepS (sendRaises : Bool) (cfg : Config) (phase : Nat) (ov oc : Option ℚ)
    (counter : Nat) (reported : Bool) : StepOut (Nat × Bool) :=
  match ov, oc with
  | some _, some current =>
      let passthru_current_limit := cfg.passthru_current * 0.98
      let passthru_current_reset_threshold := cfg.passthru_current * 0.85
      if current > passthru_current_limit then
        let c := counter + 1
        if 2 ≤ c ∧ reported = false then
          if sendRaises then ⟨(c, reported), [], false⟩
          else ⟨(c, true), [Event.passthruMsg phase current], true⟩
        else ⟨(c, reported), [], true⟩
      else if current < passthru_current_reset_threshold then ⟨(0, false), [], true⟩
      else ⟨(counter, reported), [], true⟩
  | _, _ => ⟨(counter, reported), [], true⟩

/-- The Passthru current loop (lines 1634-1651) with sends, phases
threaded. -/
def passthruSectionS (sendRaises : Bool) (cfg : Config) (ov oc : Phases (Option ℚ))
    (counters : Phases Nat) (rep : Phases Bool) : StepOut (Phases Nat × Phases Bool) :=
  let s1 := passthruPhaseStepS sendRaises cfg 1 ov.p1 oc.p1 counters.p1 rep.p1
  if s1.ok then
    let c1 := { counters with p1 := s1.state.1 }
    let r1 := { rep with p1 := s1.state.2 }
    let s2 := passthruPhaseStepS sendRaises cfg 2 ov.p2 oc.p2 counters.p2 rep.p2
    if s2.ok then
      let c2 := { c1 with p2 := s2.state.1 }
      let r2 := { r1 with p2 := s2.state.2 }
      let s3 := passthruPhaseStepS sendRaises cfg 3 ov.p3 oc.p3 counters.p3 rep.p3
      if s3.ok then
        ⟨({ c2 with p3 := s3.state.1 }, { r2 with p3 := s3.state.2 }),
          s1.events ++ s2.events ++ s3.events, true⟩
      else ⟨({ c2 with p3 := s3.state.1 }, { r2 with p3 := s3.state.2 }),
        s1.events ++ s2.events ++ s3.events, false⟩
    else ⟨({ c1 with p2 := s2.state.1 }, { r1 with p2 := s2.state.2 }),
      s1.events, false⟩
  else ⟨({ counters with p1 := s1.state.1 }, { rep with p1 := s1.state.2 }),
    s1.events, false⟩

/-- The send-aware monitor cycle (lines 1514-1651).  sendRaises is true
exactly when either quiet-hour bound is stored as a non-integer string
(see sendTelegramGate below): every send_telegram_message call in the
cycle then raises ValueError, and the first section that attempts a send
aborts the cycle via the outer except at line 1654, leaving only the state
updates that textually precede the raise.  With sendRaises = false this
coincides with monitorCycle (monitorCycleS_noRaise). -/
def monitorCycleS (cfg : Config) (tuyaEnabled sendRaises : Bool) (fetch : FetchResult)
    (st : MonitorState) : StepOut MonitorState :=
  match fetch with
  | .failure =>
      let grid := gridSectionS sendRaises tuyaEnabled none st.last_grid_status
      if grid.ok then
        let soc := socStepS sendRaises cfg.battery_low_soc_threshold
          cfg.battery_critical_soc_threshold none st.last_soc
          st.battery_low_reported st.battery_critical_reported
        if soc.ok then
          ⟨{ st with
              last_grid_status := grid.state
              last_soc := none
              battery_low_reported := soc.state.1
              battery_critical_reported := soc.state.2 },
            grid.events ++ soc.events, false⟩
        else
          ⟨{ st with
              last_grid_status := grid.state
              battery_low_reported := soc.state.1
              battery_critical_reported := soc.state.2 },
            grid.events ++ soc.events, false⟩
      else ⟨{ st with last_grid_status := grid.state }, grid.events, false⟩
  | .success grid_status soc vp ov oc ve_bus_state =>
      let grid := gridSectionS sendRaises tuyaEnabled grid_status st.last_grid_status
      if grid.ok then
        let socR := socStepS sendRaises cfg.battery_low_soc_threshold
          cfg.battery_critical_soc_threshold soc st.last_soc
          st.battery_low_reported st.battery_critical_reported
        if socR.ok then
          let volt := voltageSectionS sendRaises cfg vp st.last_voltage_phases
            st.voltage_issue_reported
          if volt.ok then
            let pow :=
              match grid_status with
              | some gs =>
                  if gs.code = 2 then
                    powerSectionS sendRaises cfg ov oc st.power_issue_counters
                      st.power_issue_reported
                  else ⟨(st.power_issue_counters, st.power_issue_reported), [], true⟩
              | none => ⟨(st.power_issue_counters, st.power_issue_reported), [], true⟩
            if pow.ok then
              let pt :=
                if ve_bus_state = some PASSTHRU_STATE then
                  passthruSectionS sendRaises cfg ov oc pow.state.1 pow.state.2
                else ⟨(pow.state.1, pow.state.2), [], true⟩
              ⟨{ last_grid_status := grid.state
                 last_soc := soc
                 battery_low_reported := socR.state.1
                 battery_critical_reported := socR.state.2
                 last_voltage_phases := volt.state.1
                 voltage_issue_reported := volt.state.2
                 power_issue_counters := pt.state.1
                 power_issue_reported := pt.state.2 },
                grid.events ++ socR.events ++ volt.events ++ pow.events ++ pt.events,
                pt.ok⟩
            else
              ⟨{ last_grid_status := grid.state
                 last_soc := soc
                 battery_low_reported := socR.state.1
                 battery_critical_reported := socR.state.2
                 last_voltage_phases := volt.state.1
                 voltage_issue_reported := volt.state.2
                 power_issue_counters := pow.state.1
                 power_issue_reported := pow.state.2 },
                grid.events ++ socR.events ++ volt.events ++ pow.events, false⟩
          else
            ⟨{ st with
                last_grid_status := grid.state
                last_soc := soc
                battery_low_reported := socR.state.1
                battery_critical_reported := socR.state.2
                last_voltage_phases := volt.state.1
                voltage_issue_reported := volt.state.2 },
              grid.events ++ socR.events ++ volt.events, false⟩
        else
          ⟨{ st with
              last_grid_status := grid.state
              battery_low_reported := socR.state.1
              battery_critical_reported := socR.state.2 },
            grid.events ++ socR.events, false⟩
      else ⟨{ st with last_grid_status := grid.state }, grid.events, false⟩

/-- Whether a fetch result is the success branch of get_status. -/
def FetchResult.isSuccess : FetchResult → Bool
  | .failure => false
  | .success _ _ _ _ _ _ => true

/-- With returning sends, the send-aware grid section coincides with
gridSection. -/
theorem gridSectionS_noRaise (te : Bool) (g last : Option GridStatus) :
    gridSectionS false te g last =
      ⟨(gridSection te g last).1, (gridSection te g last).2, true⟩ := by
  rcases eq_or_ne g last with h | h
  · simp [gridSectionS, gridSection, h]
  · cases g with
    | none => simp [gridSectionS, gridSection, h]
    | some gs =>
        simp only [gridSectionS, gridSection, ne_eq, h, not_false_iff, if_true]
        split_ifs <;> simp_all

/-- With returning sends, the send-aware SOC section coincides with
socStep. -/
theorem socStepS_noRaise (lt ct : ℚ) (soc last : Option ℚ) (lr cr : Bool) :
    socStepS false lt ct soc last lr cr =
      ⟨((socStep lt ct soc last lr cr).1, (socStep lt ct soc last lr cr).2.1),
        (socStep lt ct soc last lr cr).2.2, true⟩ := by
  rcases soc with _ | s <;> rcases last with _ | l <;>
    first
    | rfl
    | · simp only [socStepS, socCritCheck, socResets, socStep]
        split_ifs <;> simp_all

/-- With returning sends, the send-aware voltage check coincides with
voltagePhaseStep. -/
theorem voltagePhaseStepS_noRaise (cfg : Config) (p : Nat) (v : Option ℚ) (r : Bool) :
    voltagePhaseStepS false cfg p v r =
      ⟨(voltagePhaseStep cfg p v r).1, (voltagePhaseStep cfg p v r).2, true⟩ := by
  rcases v with _ | x
  · rfl
  · simp only [voltagePhaseStepS, voltagePhaseStep]
    split_ifs <;> simp_all

/-- With returning sends, the send-aware voltage loop completes all three
phases, writes the whole voltage dict, and coincides with voltageSection. -/
theorem voltageSectionS_noRaise (cfg : Config) (vp lastVp : Phases (Option ℚ))
    (rep : Phases Bool) :
    voltageSectionS false cfg vp lastVp rep =
      ⟨(vp, (voltageSection cfg vp rep).1), (voltageSection cfg vp rep).2, true⟩ := by
  simp [voltageSectionS, voltageSection, voltagePhaseStepS_noRaise]

/-- With returning sends, the send-aware power loop coincides with
powerSection. -/
theorem powerSectionS_noRaise (cfg : Config) (ov oc : Phases (Option ℚ))
    (cs : Phases Nat) (rep : Phases Bool) :
    powerSectionS false cfg ov oc cs rep =
      ⟨((powerSection cfg ov oc cs rep).1, (powerSection cfg ov oc cs rep).2.1),
        (powerSection cfg ov oc cs rep).2.2, true⟩ := by
  have h : ∀ (p : Nat) (a b : Option ℚ) (c : Nat) (r : Bool),
      powerPhaseStepS false cfg p a b c r =
        ⟨((powerPhaseStep cfg p a b c r).1, (powerPhaseStep cfg p a b c r).2.1),
          (powerPhaseStep cfg p a b c r).2.2, true⟩ := by
    intro p a b c r
    rcases a with _ | x <;> rcases b with _ | y
    · rfl
    · rfl
    · rfl
    · simp only [powerPhaseStepS, powerPhaseStep]
      split_ifs <;> simp_all
  simp [powerSectionS, powerSection, h]

/-- With returning sends, the send-aware Passthru loop coincides with
passthruSection. -/
theorem passthruSectionS_noRaise (cfg : Config) (ov oc : Phases (Option ℚ))
    (cs : Phases Nat) (rep : Phases Bool) :
    passthruSectionS false cfg ov oc cs rep =
      ⟨((passthruSection cfg ov oc cs rep).1, (passthruSection cfg ov oc cs rep).2.1),
        (passthruSection cfg ov oc cs rep).2.2, true⟩ := by
  have h : ∀ (p : Nat) (a b : Option ℚ) (c : Nat) (r : Bool),
      passthruPhaseStepS false cfg p a b c r =
        ⟨((passthruPhaseStep cfg p a b c r).1, (passthruPhaseStep cfg p a b c r).2.1),
          (passthruPhaseStep cfg p a b c r).2.2, true⟩ := by
    intro p a b c r
    rcases a with _ | x <;> rcases b with _ | y
    · rfl
    · rfl
    · rfl
    · simp only [passthruPhaseStepS, passthruPhaseStep]
      split_ifs <;> simp_all
  simp [passthruSectionS, passthruSection, h]

/-- With returning sends (both quiet-hour bounds parse as integers), the
send-aware cycle coincides with monitorCycle; the ok flag records only the
AttributeError of the failure path. -/
theorem monitorCycleS_noRaise (cfg : Config) (te : Bool) (fetch : FetchResult)
    (st : MonitorState) :
    monitorCycleS cfg te false fetch st =
      ⟨(monitorCycle cfg te fetch st).1, (monitorCycle cfg te fetch st).2,
        fetch.isSuccess⟩ := by
  cases fetch with
  | failure =>
      simp [monitorCycleS, monitorCycle, FetchResult.isSuccess,
        gridSectionS_noRaise, socStepS_noRaise]
  | success g soc vp ov oc vbs =>
      rcases g with _ | gs
      · by_cases hv : vbs = some PASSTHRU_STATE <;>
          simp [monitorCycleS, monitorCycle, FetchResult.isSuccess, hv,
            gridSectionS_noRaise, socStepS_noRaise, voltageSectionS_noRaise,
            powerSectionS_noRaise, passthruSectionS_noRaise]
      · by_cases hc : gs.code = 2 <;> by_cases hv : vbs = some PASSTHRU_STATE <;>
          simp [monitorCycleS, monitorCycle, FetchResult.isSuccess, hc, hv,
            gridSectionS_noRaise, socStepS_noRaise, voltageSectionS_noRaise,
            powerSectionS_noRaise, passthruSectionS_noRaise]

/-- Claim C2, counterexample.  With either quiet-hour bound stored as a
non-integer string (the shipped default '' for disabled quiet hours), the
send at line 1522 raises ValueError: across two consecutive grid-down
cycles from the grid-up steady state, zero down notifications are sent and
the actuator is never invoked - not exactly one of each as claimed (and
line 1551 never runs, so the edge re-fires every cycle). -/
theorem c2_counterexample :
    ¬(((monitorCycleS exampleConfig true true (gridDownFetch 0) steadyUpState).events ++
        (monitorCycleS exampleConfig true true (gridDownFetch 0)
          (monitorCycleS exampleConfig true true (gridDownFetch 0)
            steadyUpState).state).events).count Event.gridDownMsg = 1 ∧
      ((monitorCycleS exampleConfig true true (gridDownFetch 0) steadyUpState).events ++
        (monitorCycleS exampleConfig true true (gridDownFetch 0)
          (monitorCycleS exampleConfig true true (gridDownFetch 0)
            steadyUpState).state).events).count Event.tuyaOff = 1) := by
  decide

/-- Claim C2, amended.  Provided both quiet-hour bounds parse as integers
(send_telegram_message returns), two consecutive cycles fetching the same
down status, from an accepted status that differed, send exactly one
grid-down notification and invoke the actuator turn-off exactly once:
grid events are edge-triggered on change of the accepted value.  (The
pre-outage trigger block cannot add a turn-off in such cycles: source line
1484 gates it on grid status code 0.) -/
theorem c2_amended_grid_down_two_cycles (cfg : Config) (fr1 fr2 : FetchResult)
    (g : GridStatus) (st : MonitorState) (h1 : fr1.grid = some g)
    (h2 : fr2.grid = some g) (hcode : g.code = 2)
    (hprev : st.last_grid_status ≠ some g) :
    (((monitorCycleS cfg true false fr1 st).events ++
        (monitorCycleS cfg true false fr2
          (monitorCycleS cfg true false fr1 st).state).events).count
        Event.gridDownMsg = 1) ∧
    (((monitorCycleS cfg true false fr1 st).events ++
        (monitorCycleS cfg true false fr2
          (monitorCycleS cfg true false fr1 st).state).events).count
        Event.tuyaOff = 1) := by
  simp only [monitorCycleS_noRaise]
  exact grid_down_two_cycles_noRaise cfg fr1 fr2 g st h1 h2 hcode hprev

/-- Claim C2, witness: concretely, with returning sends, two down cycles
from the grid-up steady state emit one down message and one turn-off. -/
theorem c2_amended_witness :
    (((monitorCycleS exampleConfig true false (gridDownFetch 0) steadyUpState).events ++
        (monitorCycleS exampleConfig true false (gridDownFetch 0)
          (monitorCycleS exampleConfig true false (gridDownFetch 0)
            steadyUpState).state).events).count Event.gridDownMsg = 1) ∧
    (((monitorCycleS exampleConfig true false (gridDownFetch 0) steadyUpState).events ++
        (monitorCycleS exampleConfig true false (gridDownFetch 0)
          (monitorCycleS exampleConfig true false (gridDownFetch 0)
            steadyUpState).state).events).count Event.tuyaOff = 1) :=
  c2_amended_grid_down_two_cycles exampleConfig (gridDownFetch 0) (gridDownFetch 0)
    gridDownStatus steadyUpState rfl rfl rfl (by decide)

/-- Claim C3, counterexample.  In the same four grid-down cycles (powers
4200, 4200, 3900, 3000 W) but with a quiet-hour bound stored as a
non-integer string, the breach counter still reaches 2 on the second cycle
but the alert send at line 1627 raises before line 1628: no CRITICAL_LOAD
alert is ever delivered and the reported flag stays false - not exactly
one alert as claimed. -/
theorem c3_counterexample :
    (monitorCycleS exampleConfig true true (gridDownFetch (4200 / 230))
      steadyDownState).events = [] ∧
    (let r2 := monitorCycleS exampleConfig true true (gridDownFetch (4200 / 230))
        (monitorCycleS exampleConfig true true (gridDownFetch (4200 / 230))
          steadyDownState).state
     r2.events = [] ∧ r2.state.power_issue_counters.p1 = 2 ∧
     r2.state.power_issue_reported.p1 = false ∧
     (let r3 := monitorCycleS exampleConfig true true (gridDownFetch (3900 / 230)) r2.state
      r3.events = [] ∧
      (let r4 := monitorCycleS exampleConfig true true (gridDownFetch (3000 / 230)) r3.state
       r4.events = []))) := by
  simp [monitorCycleS, gridSectionS, socStepS, socCritCheck, socResets,
    voltageSectionS, voltagePhaseStepS, powerSectionS, powerPhaseStepS,
    passthruSectionS, passthruPhaseStepS, exampleConfig, gridDownFetch,
    steadyDownState, gridDownStatus, PASSTHRU_STATE]
  norm_num

/-- Claim C3, amended.  Provided both quiet-hour bounds parse as integers
(sends return): with MAX_POWER 4000 and NOMINAL_VOLTAGE 230, four
grid-down cycles on phase 1 with powers 4200, 4200, 3900, 3000 W behave as
claimed - counter 1 and no alert after the first breach, exactly the one
CRITICAL_LOAD alert on the second, the 3900 W cycle leaves counter and
flag untouched, the 3000 W cycle resets both. -/
theorem c3_amended_power_alert_scenario :
    (monitorCycleS exampleConfig true false (gridDownFetch (4200 / 230))
      steadyDownState).events = [] ∧
    (monitorCycleS exampleConfig true false (gridDownFetch (4200 / 230))
      steadyDownState).state.power_issue_counters.p1 = 1 ∧
    (monitorCycleS exampleConfig true false (gridDownFetch (4200 / 230))
      steadyDownState).state.power_issue_reported.p1 = false ∧
    (let r2 := monitorCycleS exampleConfig true false (gridDownFetch (4200 / 230))
        (monitorCycleS exampleConfig true false (gridDownFetch (4200 / 230))
          steadyDownState).state
     r2.events = [Event.criticalLoadMsg 1 4200] ∧
     r2.state.power_issue_counters.p1 = 2 ∧ r2.state.power_issue_reported.p1 = true ∧
     (let r3 := monitorCycleS exampleConfig true false (gridDownFetch (3900 / 230)) r2.state
      r3.events = [] ∧
      r3.state.power_issue_counters.p1 = r2.state.power_issue_counters.p1 ∧
      r3.state.power_issue_reported.p1 = r2.state.power_issue_reported.p1 ∧
      (let r4 := monitorCycleS exampleConfig true false (gridDownFetch (3000 / 230)) r3.state
       r4.events = [] ∧ r4.state.power_issue_counters.p1 = 0 ∧
       r4.state.power_issue_reported.p1 = false))) := by
  simp [monitorCycleS, gridSectionS, socStepS, socCritCheck, socResets,
    voltageSectionS, voltagePhaseStepS, powerSectionS, powerPhaseStepS,
    passthruSectionS, passthruPhaseStepS, exampleConfig, gridDownFetch,
    steadyDownState, gridDownStatus, PASSTHRU_STATE]
  norm_num

/-- Claim C10, counterexample.  In a single cycle with the grid down, the
VE.Bus state Passthru, and phase 1 breaching both the power and Passthru
current limits, but with a quiet-hour bound stored as a non-integer
string, the shared counter still reaches 2 (incremented at lines 1623 and
1643), but the Passthru alert send at line 1647 raises before line 1648:
no alert is sent and the reported flag stays false - contradicting the
claimed alert after one such cycle. -/
theorem c10_counterexample :
    (monitorCycleS exampleConfig true true (FetchResult.success (some gridDownStatus)
      none ⟨none, none, none⟩ ⟨some 230, none, none⟩ ⟨some 20, none, none⟩
      (some PASSTHRU_STATE)) steadyDownState).state.power_issue_counters.p1 = 2 ∧
    (monitorCycleS exampleConfig true true (FetchResult.success (some gridDownStatus)
      none ⟨none, none, none⟩ ⟨some 230, none, none⟩ ⟨some 20, none, none⟩
      (some PASSTHRU_STATE)) steadyDownState).state.power_issue_reported.p1 = false ∧
    (monitorCycleS exampleConfig true true (FetchResult.success (some gridDownStatus)
      none ⟨none, none, none⟩ ⟨some 230, none, none⟩ ⟨some 20, none, none⟩
      (some PASSTHRU_STATE)) steadyDownState).events = [] := by
  simp [monitorCycleS, gridSectionS, socStepS, socCritCheck, socResets,
    voltageSectionS, voltagePhaseStepS, powerSectionS, powerPhaseStepS,
    passthruSectionS, passthruPhaseStepS, exampleConfig,
    steadyDownState, gridDownStatus, PASSTHRU_STATE]
  norm_num

/-- Claim C10, amended.  The grid-down power check and the Passthru
current check share power_issue_counters and power_issue_reported: in a
single cycle with the grid down, the VE.Bus state Passthru and phase 1
breaching both 98% limits, the shared phase-1 counter goes from 0 to 2
within the cycle; provided both quiet-hour bounds parse as integers (send
returns), the Passthru alert is already sent in that first cycle and the
flag is set (with an unparseable bound the counter still reaches 2 but the
send raises, so no alert is delivered and the flag stays false). -/
theorem c10_amended_shared_counter (cfg : Config) (st : MonitorState)
    (gs : GridStatus) (soc : Option ℚ) (vp ov oc : Phases (Option ℚ)) (v i : ℚ)
    (hcode : gs.code = 2) (hov : ov.p1 = some v) (hoc : oc.p1 = some i)
    (hc0 : st.power_issue_counters.p1 = 0) (hr0 : st.power_issue_reported.p1 = false)
    (hpow : cfg.nominal_voltage * i > cfg.max_power * 0.98)
    (hcur : i > cfg.passthru_current * 0.98) :
    (monitorCycleS cfg true false (FetchResult.success (some gs) soc vp ov oc
        (some PASSTHRU_STATE)) st).state.power_issue_counters.p1 = 2 ∧
    (monitorCycleS cfg true false (FetchResult.success (some gs) soc vp ov oc
        (some PASSTHRU_STATE)) st).state.power_issue_reported.p1 = true ∧
    Event.passthruMsg 1 i ∈ (monitorCycleS cfg true false (FetchResult.success
        (some gs) soc vp ov oc (some PASSTHRU_STATE)) st).events := by
  simp only [monitorCycleS_noRaise]
  exact shared_counter_double_increment_noRaise cfg st gs soc vp ov oc v i
    hcode hov hoc hc0 hr0 hpow hcur

/-- Claim C10, witness: a concrete instance with MAX_POWER 4000,
NOMINAL_VOLTAGE 230, PASSTHRU_CURRENT 16 and an output current of 20 A. -/
theorem c10_amended_witness :
    (monitorCycleS exampleConfig true false (FetchResult.success (some gridDownStatus)
      none ⟨none, none, none⟩ ⟨some 230, none, none⟩ ⟨some 20, none, none⟩
      (some PASSTHRU_STATE)) steadyDownState).state.power_issue_counters.p1 = 2 ∧
    (monitorCycleS exampleConfig true false (FetchResult.success (some gridDownStatus)
      none ⟨none, none, none⟩ ⟨some 230, none, none⟩ ⟨some 20, none, none⟩
      (some PASSTHRU_STATE)) steadyDownState).state.power_issue_reported.p1 = true ∧
    Event.passthruMsg 1 20 ∈ (monitorCycleS exampleConfig true false
      (FetchResult.success (some gridDownStatus) none ⟨none, none, none⟩
        ⟨some 230, none, none⟩ ⟨some 20, none, none⟩
        (some PASSTHRU_STATE)) steadyDownState).events :=
  c10_amended_shared_counter exampleConfig steadyDownState gridDownStatus none
    ⟨none, none, none⟩ ⟨some 230, none, none⟩ ⟨some 20, none, none⟩ 230 20
    rfl rfl rfl rfl rfl (by norm_num [exampleConfig]) (by norm_num [exampleConfig])

/-- Exact low-alert delivery condition of one send-aware SOC step: the
falling-edge condition must hold and the send must return. -/
theorem socStepS_low_count (sr : Bool) (lt ct s l : ℚ) (lr cr : Bool) :
    (socStepS sr lt ct (some s) (some l) lr cr).events.countP Event.isLowBattery =
      if (l > lt ∧ s ≤ lt ∧ lr = false) ∧ sr = false then 1 else 0 := by
  simp only [socStepS, socCritCheck, socResets]
  split_ifs <;> simp_all [Event.isLowBattery]

/-- Exact critical-alert delivery condition of one send-aware SOC step. -/
theorem socStepS_crit_count (sr : Bool) (lt ct s l : ℚ) (lr cr : Bool) :
    (socStepS sr lt ct (some s) (some l) lr cr).events.countP Event.isCriticalBattery =
      if (l > ct ∧ s ≤ ct ∧ cr = false) ∧ sr = false then 1 else 0 := by
  simp only [socStepS, socCritCheck, socResets]
  split_ifs <;> simp_all [Event.isCriticalBattery]

/-- For every send outcome, the low flag clears in a step only when the
sample is strictly above the low threshold. -/
theorem socStepS_low_clear (sr : Bool) (lt ct s l : ℚ) (cr : Bool)
    (h : (socStepS sr lt ct (some s) (some l) true cr).state.1 = false) : s > lt := by
  by_contra hs
  rw [not_lt] at hs
  revert h
  simp only [socStepS, socCritCheck, socResets]
  split_ifs <;> simp_all <;> linarith

/-- For every send outcome, the critical flag clears in a step only when
the sample is strictly above the critical threshold. -/
theorem socStepS_crit_clear (sr : Bool) (lt ct s l : ℚ) (lr : Bool)
    (h : (socStepS sr lt ct (some s) (some l) lr true).state.2 = false) : s > ct := by
  by_contra hs
  rw [not_lt] at hs
  revert h
  simp only [socStepS, socCritCheck, socResets]
  split_ifs <;> simp_all <;> linarith

/-- For every send outcome, with the low flag set and a sample at or below
the low threshold, the flag stays set and no low alert is delivered. -/
theorem socStepS_low_keep (sr : Bool) (lt ct s : ℚ) (last : Option ℚ) (cr : Bool)
    (hs : s ≤ lt) :
    (socStepS sr lt ct (some s) last true cr).state.1 = true ∧
    (socStepS sr lt ct (some s) last true cr).events.countP Event.isLowBattery = 0 := by
  rcases last with _ | l
  · simp [socStepS]
  · constructor
    · simp only [socStepS, socCritCheck, socResets]
      split_ifs <;> simp_all <;> linarith
    · rw [socStepS_low_count]
      simp

/-- For every send outcome, with the critical flag set and a sample at or
below the critical threshold, the flag stays set and no critical alert is
delivered. -/
theorem socStepS_crit_keep (sr : Bool) (lt ct s : ℚ) (last : Option ℚ) (lr : Bool)
    (hs : s ≤ ct) :
    (socStepS sr lt ct (some s) last lr true).state.2 = true ∧
    (socStepS sr lt ct (some s) last lr true).events.countP Event.isCriticalBattery = 0 := by
  rcases last with _ | l
  · simp [socStepS]
  · constructor
    · simp only [socStepS, socCritCheck, socResets]
      split_ifs <;> simp_all <;> linarith
    · rw [socStepS_crit_count]
      simp

/-- After a delivered low alert the low flag is set and no exception was
raised. -/
theorem socStepS_low_after_fire (lt ct s l : ℚ) (lr cr : Bool)
    (h : l > lt ∧ s ≤ lt ∧ lr = false) :
    (socStepS false lt ct (some s) (some l) lr cr).state.1 = true ∧
    (socStepS false lt ct (some s) (some l) lr cr).ok = true := by
  constructor <;>
    · simp only [socStepS, socCritCheck, socResets]
      split_ifs <;> simp_all <;> linarith

/-- After a delivered critical alert the critical flag is set. -/
theorem socStepS_crit_after_fire (lt ct s l : ℚ) (lr cr : Bool)
    (h : l > ct ∧ s ≤ ct ∧ cr = false) :
    (socStepS false lt ct (some s) (some l) lr cr).state.2 = true := by
  simp only [socStepS, socCritCheck, socResets]
  split_ifs <;> simp_all <;> linarith

/-- With returning sends, the low components of a SOC step do not depend
on the critical flag. -/
theorem socStepS_low_indep (lt ct s l : ℚ) (lr cr cr2 : Bool) :
    (socStepS false lt ct (some s) (some l) lr cr).state.1 =
      (socStepS false lt ct (some s) (some l) lr cr2).state.1 := by
  simp only [socStepS, socCritCheck, socResets]
  split_ifs <;> simp_all

/-- With returning sends, the critical components of a SOC step do not
depend on the low flag. -/
theorem socStepS_crit_indep (lt ct s l : ℚ) (lr lr2 cr : Bool) :
    (socStepS false lt ct (some s) (some l) lr cr).state.2 =
      (socStepS false lt ct (some s) (some l) lr2 cr).state.2 := by
  simp only [socStepS, socCritCheck, socResets]
  split_ifs <;> simp_all

/-- The SOC section iterated over a run of cycles, each with its own send
outcome (the quiet-hour configuration is re-read every cycle) and present
sample.  last_soc (line 1576) is updated only when the cycle did not raise
before reaching it. -/
def socRunS (lowThr critThr : ℚ) (last : Option ℚ) (lowR critR : Bool) :
    List (Bool × ℚ) → (Option ℚ × Bool × Bool) × List Event
  | [] => ((last, lowR, critR), [])
  | c :: rest =>
      let step := socStepS c.1 lowThr critThr (some c.2) last lowR critR
      let newLast := if step.ok then some c.2 else last
      let r := socRunS lowThr critThr newLast step.state.1 step.state.2 rest
      (r.1, step.events ++ r.2)

/-- While the low flag is set, a run of sub-threshold samples delivers no
low alert, for every sequence of send outcomes. -/
theorem socRunS_low_zero_of_flag (lt ct : ℚ) :
    ∀ (cycles : List (Bool × ℚ)) (last : Option ℚ) (cr : Bool),
      (∀ c ∈ cycles, c.2 ≤ lt) →
      (socRunS lt ct last true cr cycles).2.countP Event.isLowBattery = 0
  | [], _, _, _ => by simp [socRunS]
  | c :: rest, last, cr, h => by
      have hs : c.2 ≤ lt := h c (List.mem_cons_self c rest)
      have hrest : ∀ x ∈ rest, x.2 ≤ lt := fun x hx => h x (List.mem_cons_of_mem c hx)
      have hstep := socStepS_low_keep c.1 lt ct c.2 last cr hs
      simp only [socRunS, List.countP_append]
      rw [hstep.2, hstep.1, socRunS_low_zero_of_flag lt ct rest _ _ hrest]

/-- While the critical flag is set, a run of sub-threshold samples
delivers no critical alert, for every sequence of send outcomes. -/
theorem socRunS_crit_zero_of_flag (lt ct : ℚ) :
    ∀ (cycles : List (Bool × ℚ)) (last : Option ℚ) (lr : Bool),
      (∀ c ∈ cycles, c.2 ≤ ct) →
      (socRunS lt ct last lr true cycles).2.countP Event.isCriticalBattery = 0
  | [], _, _, _ => by simp [socRunS]
  | c :: rest, last, lr, h => by
      have hs : c.2 ≤ ct := h c (List.mem_cons_self c rest)
      have hrest : ∀ x ∈ rest, x.2 ≤ ct := fun x hx => h x (List.mem_cons_of_mem c hx)
      have hstep := socStepS_crit_keep c.1 lt ct c.2 last lr hs
      simp only [socRunS, List.countP_append]
      rw [hstep.2, hstep.1, socRunS_crit_zero_of_flag lt ct rest _ _ hrest]

/-- Over any run of sub-threshold samples, with any sequence of send
outcomes, at most one low alert is delivered. -/
theorem socRunS_low_le_one (lt ct : ℚ) :
    ∀ (cycles : List (Bool × ℚ)) (last : Option ℚ) (lr cr : Bool),
      (∀ c ∈ cycles, c.2 ≤ lt) →
      (socRunS lt ct last lr cr cycles).2.countP Event.isLowBattery ≤ 1
  | [], _, _, _, _ => by simp [socRunS]
  | c :: rest, last, lr, cr, h => by
      have hrest : ∀ x ∈ rest, x.2 ≤ lt := fun x hx => h x (List.mem_cons_of_mem c hx)
      rcases last with _ | l
      · have hstep : socStepS c.1 lt ct (some c.2) none lr cr = ⟨(lr, cr), [], true⟩ := rfl
        simp only [socRunS, List.countP_append, hstep]
        simpa using socRunS_low_le_one lt ct rest _ _ _ hrest
      · simp only [socRunS, List.countP_append]
        rw [socStepS_low_count]
        by_cases hf : (l > lt ∧ c.2 ≤ lt ∧ lr = false) ∧ c.1 = false
        · rw [if_pos hf]
          obtain ⟨hfire, hsr⟩ := hf
          simp only [hsr]
          have haf := socStepS_low_after_fire lt ct c.2 l lr cr hfire
          rw [haf.1, haf.2, socRunS_low_zero_of_flag lt ct rest _ _ hrest]
        · rw [if_neg hf]
          simpa using socRunS_low_le_one lt ct rest _ _ _ hrest

/-- Over any run of sub-threshold samples, with any sequence of send
outcomes, at most one critical alert is delivered. -/
theorem socRunS_crit_le_one (lt ct : ℚ) :
    ∀ (cycles : List (Bool × ℚ)) (last : Option ℚ) (lr cr : Bool),
      (∀ c ∈ cycles, c.2 ≤ ct) →
      (socRunS lt ct last lr cr cycles).2.countP Event.isCriticalBattery ≤ 1
  | [], _, _, _, _ => by simp [socRunS]
  | c :: rest, last, lr, cr, h => by
      have hrest : ∀ x ∈ rest, x.2 ≤ ct := fun x hx => h x (List.mem_cons_of_mem c hx)
      rcases last with _ | l
      · have hstep : socStepS c.1 lt ct (some c.2) none lr cr = ⟨(lr, cr), [], true⟩ := rfl
        simp only [socRunS, List.countP_append, hstep]
        simpa using socRunS_crit_le_one lt ct rest _ _ _ hrest
      · simp only [socRunS, List.countP_append]
        rw [socStepS_crit_count]
        by_cases hf : (l > ct ∧ c.2 ≤ ct ∧ cr = false) ∧ c.1 = false
        · rw [if_pos hf]
          obtain ⟨hfire, hsr⟩ := hf
          simp only [hsr]
          have haf := socStepS_crit_after_fire lt ct c.2 l lr cr hfire
          have hok : (socStepS false lt ct (some c.2) (some l) lr cr).ok = true := by
            simp only [socStepS, socCritCheck, socResets]
            split_ifs <;> simp_all
          rw [haf, hok, socRunS_crit_zero_of_flag lt ct rest _ _ hrest]
        · rw [if_neg hf]
          simpa using socRunS_crit_le_one lt ct rest _ _ _ hrest

/-- Claim C4.  For SOC sequences with all samples present, after priming,
and for every send outcome of the quiet-hour gate: a low (resp. critical)
alert is delivered in a step exactly when the previous sample was strictly
above the threshold, the current one at or below it, the flag clear, and
the send returned; a set flag clears only when the sample is strictly
above the same threshold; over any run of sub-threshold samples at most
one low (resp. critical) alert is delivered; with returning sends the low
and critical machinery are independent of each other's flag, and both
flags can be outstanding at once. -/
theorem c4_soc_alert_send_aware (lt ct : ℚ) :
    (∀ (sr : Bool) (s l : ℚ) (lr cr : Bool),
        (socStepS sr lt ct (some s) (some l) lr cr).events.countP Event.isLowBattery =
          if (l > lt ∧ s ≤ lt ∧ lr = false) ∧ sr = false then 1 else 0) ∧
    (∀ (sr : Bool) (s l : ℚ) (lr cr : Bool),
        (socStepS sr lt ct (some s) (some l) lr cr).events.countP
          Event.isCriticalBattery =
          if (l > ct ∧ s ≤ ct ∧ cr = false) ∧ sr = false then 1 else 0) ∧
    (∀ (sr : Bool) (s l : ℚ) (cr : Bool),
        (socStepS sr lt ct (some s) (some l) true cr).state.1 = false → s > lt) ∧
    (∀ (sr : Bool) (s l : ℚ) (lr : Bool),
        (socStepS sr lt ct (some s) (some l) lr true).state.2 = false → s > ct) ∧
    (∀ (sr : Bool) (s : ℚ) (last : Option ℚ) (cr : Bool), s ≤ lt →
        (socStepS sr lt ct (some s) last true cr).state.1 = true ∧
        (socStepS sr lt ct (some s) last true cr).events.countP
          Event.isLowBattery = 0) ∧
    (∀ (sr : Bool) (s : ℚ) (last : Option ℚ) (lr : Bool), s ≤ ct →
        (socStepS sr lt ct (some s) last lr true).state.2 = true ∧
        (socStepS sr lt ct (some s) last lr true).events.countP
          Event.isCriticalBattery = 0) ∧
    (∀ (cycles : List (Bool × ℚ)) (last : Option ℚ) (lr cr : Bool),
        (∀ c ∈ cycles, c.2 ≤ lt) →
        (socRunS lt ct last lr cr cycles).2.countP Event.isLowBattery ≤ 1) ∧
    (∀ (cycles : List (Bool × ℚ)) (last : Option ℚ) (lr cr : Bool),
        (∀ c ∈ cycles, c.2 ≤ ct) →
        (socRunS lt ct last lr cr cycles).2.countP Event.isCriticalBattery ≤ 1) ∧
    (∀ (s l : ℚ) (lr cr cr2 : Bool),
        (socStepS false lt ct (some s) (some l) lr cr).state.1 =
          (socStepS false lt ct (some s) (some l) lr cr2).state.1) ∧
    (∀ (s l : ℚ) (lr lr2 cr : Bool),
        (socStepS false lt ct (some s) (some l) lr cr).state.2 =
          (socStepS false lt ct (some s) (some l) lr2 cr).state.2) ∧
    (∀ (s l : ℚ), l > lt → l > ct → s ≤ lt → s ≤ ct →
        (socStepS false lt ct (some s) (some l) false false).state.1 = true ∧
        (socStepS false lt ct (some s) (some l) false false).state.2 = true) :=
  ⟨fun sr s l lr cr => socStepS_low_count sr lt ct s l lr cr,
    fun sr s l lr cr => socStepS_crit_count sr lt ct s l lr cr,
    fun sr s l cr => socStepS_low_clear sr lt ct s l cr,
    fun sr s l lr => socStepS_crit_clear sr lt ct s l lr,
    fun sr s last cr hs => socStepS_low_keep sr lt ct s last cr hs,
    fun sr s last lr hs => socStepS_crit_keep sr lt ct s last lr hs,
    fun cycles last lr cr h => socRunS_low_le_one lt ct cycles last lr cr h,
    fun cycles last lr cr h => socRunS_crit_le_one lt ct cycles last lr cr h,
    fun s l lr cr cr2 => socStepS_low_indep lt ct s l lr cr cr2,
    fun s l lr lr2 cr => socStepS_crit_indep lt ct s l lr lr2 cr,
    fun s l h1 h2 h3 h4 =>
      ⟨(socStepS_low_after_fire lt ct s l false false ⟨h1, h3, rfl⟩).1,
        socStepS_crit_after_fire lt ct s l false false ⟨h2, h4, rfl⟩⟩⟩

/-- Claim C4, witness: with thresholds 20/10, a fall from 25 to 15 with a
returning send delivers exactly one low alert; the same fall with a
raising send delivers none; and the mixed run (raise at 15, return at 12,
raise at 11) from last SOC 50 delivers at most one low alert. -/
theorem c4_send_aware_witness :
    (socStepS false 20 10 (some 15) (some 25) false false).events.countP
      Event.isLowBattery = 1 ∧
    (socStepS true 20 10 (some 15) (some 25) false false).events.countP
      Event.isLowBattery = 0 ∧
    (socRunS 20 10 (some 50) false false
      [(true, 15), (false, 12), (true, 11)]).2.countP Event.isLowBattery ≤ 1 := by
  refine ⟨?_, ?_, ?_⟩
  · rw [(c4_soc_alert_send_aware 20 10).1 false 15 25 false false]
    norm_num
  · rw [(c4_soc_alert_send_aware 20 10).1 true 15 25 false false]
    norm_num
  · exact (c4_soc_alert_send_aware 20 10).2.2.2.2.2.2.1
      [(true, 15), (false, 12), (true, 11)] (some 50) false false
      (by intro c hc
          simp only [List.mem_cons, List.not_mem_nil, or_false] at hc
          rcases hc with h | h | h <;> rw [h] <;> norm_num)

/-- The stored string of a quiet-hour bound as seen by int(): either it
parses as an integer, or int() raises ValueError - which is what happens
for the empty string, the value both DEFAULT_SETTINGS and the quiet-hours
menu store to represent "disabled". -/
inductive QuietBound where
  | parsed (n : Int)
  | unparseable
deriving DecidableEq

/-- config['DEFAULT'].getint(option, fallback=None) at source lines
1666-1667: the fallback applies only to a missing option, and load_config
(lines 139-152) injects every DEFAULT_SETTINGS key, so the option always
exists and the call either parses the stored string or raises ValueError.
The fallback=None path (and with it the `is not None` check at line 1680)
is unreachable. -/
def getintQuiet : QuietBound → Except Unit Int
  | .parsed n => .ok n
  | .unparseable => .error ()

/-- The silencing decision of send_telegram_message (source lines
1659-1684) up to the bot.send_message call: ok disable_notification when
the message is sent, error when the ValueError from getint propagates to
the monitor loop's outer except (line 1654) and nothing is sent.  Both
getint calls run before the quiet-day check, so an unparseable bound
suppresses the message even on a quiet day. -/
def sendTelegramGate (quietDays : List Int) (qs qe : QuietBound)
    (dayUserNumbering hour : Int) : Except Unit Bool :=
  match getintQuiet qs with
  | .error e => .error e
  | .ok s =>
      match getintQuiet qe with
      | .error e => .error e
      | .ok e =>
          .ok (if dayUserNumbering ∈ quietDays then true
               else if s < e then decide (s ≤ hour ∧ hour < e)
               else decide (hour ≥ s ∨ hour < e))

/-- Claim C9, counterexample.  With a quiet-hour bound stored as a
non-integer string (the representation of an absent bound), the gate
raises ValueError and the message is never sent - including outside every
quiet window (hour 10) and even on a quiet day - rather than hour-based
silencing being disabled as claimed. -/
theorem c9_counterexample :
    sendTelegramGate [] QuietBound.unparseable (QuietBound.parsed 6) 1 10 =
      Except.error () ∧
    sendTelegramGate [] (QuietBound.parsed 22) QuietBound.unparseable 1 10 =
      Except.error () ∧
    sendTelegramGate [1] QuietBound.unparseable (QuietBound.parsed 6) 1 23 =
      Except.error () := by
  exact ⟨rfl, rfl, rfl⟩

/-- Claim C9, amended.  When both quiet-hour bounds parse as integers, the
message is always sent, a quiet day silences unconditionally, start < end
silences exactly [start, end), and start > end silences exactly at
hour >= start or hour < end (with 22 and 6: hours 23 and 2 silenced, hour
10 not).  When either bound is stored as a non-integer string - the
shipped representation of an absent bound - getint raises ValueError and
the message is not sent at all, instead of hour-based silencing being
disabled. -/
theorem c9_amended_quiet_gate (quietDays : List Int) (qs qe : QuietBound)
    (day hour : Int) :
    ((qs = QuietBound.unparseable ∨ qe = QuietBound.unparseable) →
      sendTelegramGate quietDays qs qe day hour = Except.error ()) ∧
    (∀ s e : Int, qs = QuietBound.parsed s → qe = QuietBound.parsed e →
      (∃ b : Bool, sendTelegramGate quietDays qs qe day hour = Except.ok b) ∧
      (day ∈ quietDays →
        sendTelegramGate quietDays qs qe day hour = Except.ok true) ∧
      (day ∉ quietDays → s < e →
        (sendTelegramGate quietDays qs qe day hour = Except.ok true ↔
          s ≤ hour ∧ hour < e)) ∧
      (day ∉ quietDays → e < s →
        (sendTelegramGate quietDays qs qe day hour = Except.ok true ↔
          hour ≥ s ∨ hour < e))) ∧
    (sendTelegramGate [] (QuietBound.parsed 22) (QuietBound.parsed 6) 1 23 =
      Except.ok true ∧
     sendTelegramGate [] (QuietBound.parsed 22) (QuietBound.parsed 6) 1 2 =
      Except.ok true ∧
     sendTelegramGate [] (QuietBound.parsed 22) (QuietBound.parsed 6) 1 10 =
      Except.ok false) := by
  refine ⟨?_, ?_, rfl, rfl, rfl⟩
  · rintro (h | h) <;> subst h
    · rfl
    · rcases qs with n | _ <;> rfl
  · intro s e hs he
    subst hs he
    refine ⟨⟨_, rfl⟩, fun hd => by simp [sendTelegramGate, getintQuiet, hd], ?_, ?_⟩
    · intro hd hlt
      simp [sendTelegramGate, getintQuiet, hd, hlt]
    · intro hd hgt
      simp [sendTelegramGate, getintQuiet, hd, not_lt_of_gt hgt]

/-- Claim C9, witness: applying the amended theorem at the 22..6 window,
hour 23 of a non-quiet Monday is sent silenced, and with the start bound
unparseable the same send errors out. -/
theorem c9_amended_witness :
    sendTelegramGate [] (QuietBound.parsed 22) (QuietBound.parsed 6) 1 23 =
      Except.ok true ∧
    sendTelegramGate [] QuietBound.unparseable (QuietBound.parsed 6) 1 23 =
      Except.error () := by
  constructor
  · exact ((c9_amended_quiet_gate [] (QuietBound.parsed 22) (QuietBound.parsed 6)
      1 23).2.1 22 6 rfl rfl).2.2.2 (by decide) (by norm_num) |>.mpr
      (Or.inl (by norm_num))
  · exact (c9_amended_quiet_gate [] QuietBound.unparseable (QuietBound.parsed 6)
      1 23).1 (Or.inl rfl)
